import Mathlib

/-!
Verification of the Rpeak ECG-processing core against its specification.

The TypeScript sources are shallowly embedded over exact rational arithmetic:
JavaScript numbers become `ℚ`, array indices become `ℤ`/`ℕ`, possibly-undefined
array reads become `Option ℚ` (JS comparisons against `undefined` are `false`,
which `jlt`/`jgt` reproduce), and `Math.sqrt` — the only irrational operation
in the pipeline — is passed in as an explicit function parameter `sqrtFn`;
concrete evaluations instantiate it at inputs whose square root is rational and
carry a side condition proving the instantiation correct at the point used.
-/

namespace Rpeak

/-! ## Kernel-computable rational arithmetic

Batteries marks `Rat.add`, `Rat.sub`, `Rat.mul`, `Rat.inv` and
`Rat.ofScientific` as `@[irreducible]`, so closed terms built from the usual
`ℚ` operations do not evaluate inside `decide` proofs. The detector models
therefore use the following equivalents, built from `mkRat` (which the kernel
reduces, with GMP-accelerated `Nat.gcd`); each is proved equal to the
corresponding `ℚ` operation, and the general theorems rewrite through these
bridges while concrete runs evaluate by `decide`. -/

def qadd (a b : ℚ) : ℚ := mkRat (a.num * b.den + b.num * a.den) (a.den * b.den)

def qsub (a b : ℚ) : ℚ := mkRat (a.num * b.den - b.num * a.den) (a.den * b.den)

def qmul (a b : ℚ) : ℚ := mkRat (a.num * b.num) (a.den * b.den)

def qneg (a : ℚ) : ℚ := mkRat (-a.num) a.den

def qinv (a : ℚ) : ℚ :=
  if a.num = 0 then mkRat 0 1 else mkRat (Int.sign a.num * a.den) a.num.natAbs

def qdiv (a b : ℚ) : ℚ := qmul a (qinv b)

def qabs (a : ℚ) : ℚ := mkRat (a.num.natAbs : ℤ) a.den

def qlt (a b : ℚ) : Bool := decide (a.num * (b.den : ℤ) < b.num * (a.den : ℤ))

def qle (a b : ℚ) : Bool := decide (a.num * (b.den : ℤ) ≤ b.num * (a.den : ℤ))

def qbeq (a b : ℚ) : Bool := decide (a.num = b.num) && decide (a.den = b.den)

def qmax (a b : ℚ) : ℚ := if qle a b then b else a

def qmin (a b : ℚ) : ℚ := if qle a b then a else b

def qofInt (n : ℤ) : ℚ := mkRat n 1

def qofNat (n : ℕ) : ℚ := mkRat (n : ℤ) 1

/-- `Math.floor` on rationals, yielding an integer. -/
def qfloor (a : ℚ) : ℤ := a.num / a.den

/-- `Math.round` on rationals: round half toward positive infinity. -/
def qround (a : ℚ) : ℤ := qfloor (qadd a (mkRat 1 2))

theorem den_cast_pos (a : ℚ) : (0 : ℚ) < (a.den : ℚ) := by
  exact_mod_cast a.den_pos

theorem qadd_eq (a b : ℚ) : qadd a b = a + b := by
  rw [qadd, Rat.mkRat_eq_div]
  conv_rhs => rw [← Rat.num_div_den a, ← Rat.num_div_den b]
  rw [div_add_div _ _ (den_cast_pos a).ne' (den_cast_pos b).ne']
  push_cast
  ring_nf

theorem qsub_eq (a b : ℚ) : qsub a b = a - b := by
  rw [qsub, Rat.mkRat_eq_div]
  conv_rhs => rw [← Rat.num_div_den a, ← Rat.num_div_den b]
  rw [div_sub_div _ _ (den_cast_pos a).ne' (den_cast_pos b).ne']
  push_cast
  ring_nf

theorem qmul_eq (a b : ℚ) : qmul a b = a * b := by
  rw [qmul, Rat.mkRat_eq_div]
  conv_rhs => rw [← Rat.num_div_den a, ← Rat.num_div_den b]
  rw [div_mul_div_comm]
  push_cast
  ring_nf

theorem qneg_eq (a : ℚ) : qneg a = -a := by
  rw [qneg, Rat.mkRat_eq_div]
  conv_rhs => rw [← Rat.num_div_den a]
  push_cast
  rw [neg_div]

theorem qinv_eq (a : ℚ) : qinv a = a⁻¹ := by
  rw [qinv]
  by_cases h : a.num = 0
  · rw [if_pos h, Rat.num_eq_zero.mp h]
    simp [Rat.mkRat_eq_div]
  · rw [if_neg h, Rat.mkRat_eq_div]
    have ha : a⁻¹ = (a.den : ℚ) / (a.num : ℚ) := by
      conv_lhs => rw [← Rat.num_div_den a]
      exact inv_div _ _
    rw [ha]
    rcases Ne.lt_or_lt h with hneg | hpos
    · have hs : a.num.sign = -1 := Int.sign_eq_neg_one_iff_neg.mpr hneg
      rw [hs]
      have hq : ((a.num.natAbs : ℚ)) = -(a.num : ℚ) := by
        rw [Int.cast_natAbs]
        exact_mod_cast abs_of_neg hneg
      rw [hq]
      push_cast
      rw [div_neg, neg_one_mul, neg_div, neg_neg]
    · have hs : a.num.sign = 1 := Int.sign_eq_one_iff_pos.mpr hpos
      rw [hs]
      have hq : ((a.num.natAbs : ℚ)) = (a.num : ℚ) := by
        rw [Int.cast_natAbs]
        exact_mod_cast abs_of_pos hpos
      rw [hq]
      push_cast
      rw [one_mul]

theorem qdiv_eq (a b : ℚ) : qdiv a b = a / b := by
  rw [qdiv, qmul_eq, qinv_eq, div_eq_mul_inv]

theorem qabs_eq (a : ℚ) : qabs a = |a| := by
  rw [qabs, Rat.mkRat_eq_div]
  conv_rhs => rw [← Rat.num_div_den a]
  rw [abs_div, abs_of_pos (den_cast_pos a), Int.cast_natCast, Int.cast_natAbs,
    Int.cast_abs]

theorem qlt_iff (a b : ℚ) : qlt a b = true ↔ a < b := by
  rw [qlt, decide_eq_true_eq]
  conv_rhs => rw [← Rat.num_div_den a, ← Rat.num_div_den b]
  rw [div_lt_div_iff₀ (den_cast_pos a) (den_cast_pos b)]
  norm_cast

theorem qle_iff (a b : ℚ) : qle a b = true ↔ a ≤ b := by
  rw [qle, decide_eq_true_eq]
  conv_rhs => rw [← Rat.num_div_den a, ← Rat.num_div_den b]
  rw [div_le_div_iff₀ (den_cast_pos a) (den_cast_pos b)]
  norm_cast

theorem qbeq_iff (a b : ℚ) : qbeq a b = true ↔ a = b := by
  rw [qbeq, Bool.and_eq_true, decide_eq_true_eq, decide_eq_true_eq]
  constructor
  · rintro ⟨h1, h2⟩
    exact Rat.ext h1 h2
  · rintro rfl
    exact ⟨rfl, rfl⟩

theorem qmax_eq (a b : ℚ) : qmax a b = max a b := by
  rw [qmax, max_def]
  by_cases h : a ≤ b
  · rw [if_pos (qle_iff a b |>.mpr h), if_pos h]
  · rw [if_neg (fun hc => h ((qle_iff a b).mp hc)), if_neg h]

theorem qmin_eq (a b : ℚ) : qmin a b = min a b := by
  rw [qmin, min_def]
  by_cases h : a ≤ b
  · rw [if_pos (qle_iff a b |>.mpr h), if_pos h]
  · rw [if_neg (fun hc => h ((qle_iff a b).mp hc)), if_neg h]

theorem qofInt_eq (n : ℤ) : qofInt n = (n : ℚ) := Rat.mkRat_one n

theorem qofNat_eq (n : ℕ) : qofNat n = (n : ℚ) := by
  rw [qofNat, Rat.mkRat_one]
  norm_cast

theorem qfloor_eq (a : ℚ) : qfloor a = ⌊a⌋ := (Rat.floor_def).symm

theorem qround_eq (a : ℚ) : qround a = ⌊a + 1/2⌋ := by
  rw [qround, qfloor_eq, qadd_eq]
  norm_num

/-! ## JavaScript semantics helpers -/

/-- JS array read `data[i]`: `none` models `undefined` (out-of-range read). -/
def jget (data : List ℚ) (i : ℤ) : Option ℚ :=
  if 0 ≤ i ∧ i < (data.length : ℤ) then data.get? i.toNat else none

/-- JS `a < b`: any comparison involving `undefined` is `false`. -/
def jlt (a b : Option ℚ) : Bool :=
  match a, b with
  | some x, some y => qlt x y
  | _, _ => false

/-- JS `a > b`: any comparison involving `undefined` is `false`. -/
def jgt (a b : Option ℚ) : Bool :=
  match a, b with
  | some x, some y => qlt y x
  | _, _ => false

/-- JS `a >= b`: any comparison involving `undefined` is `false`. -/
def jge (a b : Option ℚ) : Bool :=
  match a, b with
  | some x, some y => qle y x
  | _, _ => false

/-- The integer interval `[lo, hi)` as a list, modelling `for (i = lo; i < hi; i++)`. -/
def intRange (lo hi : ℤ) : List ℤ :=
  (List.range (hi - lo).toNat).map (fun (k : ℕ) => lo + (k : ℤ))

theorem mem_intRange {lo hi i : ℤ} : i ∈ intRange lo hi ↔ lo ≤ i ∧ i < hi := by
  unfold intRange
  simp only [List.mem_map, List.mem_range]
  constructor
  · rintro ⟨k, hk, rfl⟩
    omega
  · rintro ⟨h1, h2⟩
    exact ⟨(i - lo).toNat, by omega, by omega⟩

theorem intRange_pairwise (lo hi : ℤ) : (intRange lo hi).Pairwise (· < ·) := by
  unfold intRange
  refine List.Pairwise.map _ (fun a b h => ?_) (List.pairwise_lt_range _)
  omega

/-! ## HRVCalculator (hrvCalculator.ts)

`rrIntervals` is the calculator's rolling RR buffer, oldest first, exactly as
the JS array. -/

/-- `HRVCalculator.addRRInterval`: accept an interval iff `300 < interval < 2000`
(strict, per the source) and evict the oldest entry when the buffer exceeds
`maxIntervals = 300` (`push` then conditional `shift`). -/
def addRRInterval (rrIntervals : List ℚ) (interval : ℚ) : List ℚ :=
  if 300 < interval ∧ interval < 2000 then
    if 300 < (rrIntervals ++ [interval]).length then (rrIntervals ++ [interval]).tail
    else rrIntervals ++ [interval]
  else rrIntervals

/-- A sequence of `addRRInterval` calls, in order. -/
def addRRIntervals (rrIntervals : List ℚ) (xs : List ℚ) : List ℚ :=
  xs.foldl addRRInterval rrIntervals

/-- `HRVCalculator.calculateRMSSD` (no-argument form: operates on the buffer). -/
def calculateRMSSD (sqrtFn : ℚ → ℚ) (intervals : List ℚ) : ℚ :=
  if intervals.length < 2 then 0
  else
    let differences := (intervals.tail.zip intervals).map (fun ab => (ab.1 - ab.2) ^ 2)
    sqrtFn (differences.sum / (differences.length : ℚ))

/-- `HRVCalculator.calculateSDNN`. -/
def calculateSDNN (sqrtFn : ℚ → ℚ) (intervals : List ℚ) : ℚ :=
  if intervals.length < 2 then 0
  else
    let mean := intervals.sum / (intervals.length : ℚ)
    let variance := (intervals.map (fun rr => (rr - mean) ^ 2)).sum / (intervals.length : ℚ)
    sqrtFn variance

/-- `HRVCalculator.calculatePNN50`. -/
def calculatePNN50 (rrIntervals : List ℚ) : ℚ :=
  if rrIntervals.length < 2 then 0
  else
    let differences := (rrIntervals.tail.zip rrIntervals).map (fun ab => |ab.1 - ab.2|)
    let nn50Count := (differences.filter (fun d => 50 < d)).length
    ((nn50Count : ℚ) / (differences.length : ℚ)) * 100

/-- `HRVCalculator.calculateTriangularIndex`: histogram with 7.8125 ms bins; the
JS loop that increments `histogram[binIndex]` under a bounds check is modelled
by counting, per bin, the intervals that fall in it. -/
def calculateTriangularIndex (rrIntervals : List ℚ) : ℚ :=
  if rrIntervals.length < 20 then 0
  else
    let binWidth : ℚ := 125/16
    let minRR := (rrIntervals.min?).getD 0
    let maxRR := (rrIntervals.max?).getD 0
    let numBins := ⌈(maxRR - minRR) / binWidth⌉
    let histogram := (List.range numBins.toNat).map
      (fun b => (rrIntervals.filter (fun rr => ⌊(rr - minRR) / binWidth⌋ = (b : ℤ))).length)
    let maxBinCount := (histogram.max?).getD 0
    if 0 < maxBinCount then (rrIntervals.length : ℚ) / (maxBinCount : ℚ) else 0

/-- `HRVCalculator.calculateLFHFRatio` (as `lf`, `hf`, `ratio`). -/
def calculateLFHF (rrIntervals : List ℚ) : ℚ × ℚ × ℚ :=
  if rrIntervals.length < 30 then (0, 0, 0)
  else
    let differences := (rrIntervals.tail.zip rrIntervals).map (fun ab => ab.1 - ab.2)
    let slowChanges := (differences.enum.filter (fun p => p.1 % 4 = 0)).map Prod.snd
    let lf := (slowChanges.map (fun v => |v|)).sum / (slowChanges.length : ℚ)
    let fastChanges := (differences.enum.filter (fun p => p.1 % 2 = 0)).map Prod.snd
    let hf := (fastChanges.map (fun v => |v|)).sum / (fastChanges.length : ℚ)
    let ratio := if 0 < hf then lf / hf else 0
    (lf, hf, ratio)

structure HRVAssessment where
  status : String
  color : String
  description : String
deriving Repr, DecidableEq

/-- `HRVCalculator.getHRVAssessment`. -/
def getHRVAssessment (sqrtFn : ℚ → ℚ) (rrIntervals : List ℚ) : HRVAssessment :=
  let rmssd := calculateRMSSD sqrtFn rrIntervals
  if rmssd < 20 then ⟨"Low", "#ef4444", "Poor autonomic function"⟩
  else if rmssd < 50 then ⟨"Normal", "#10b981", "Good autonomic balance"⟩
  else ⟨"High", "#3b82f6", "Excellent autonomic function"⟩

structure HRVMetrics where
  rmssd : ℚ
  sdnn : ℚ
  pnn50 : ℚ
  triangularIndex : ℚ
  lfhf : ℚ × ℚ × ℚ
  sampleCount : ℕ
  assessment : HRVAssessment
deriving Repr, DecidableEq

/-- `HRVCalculator.getAllMetrics`. -/
def getAllMetrics (sqrtFn : ℚ → ℚ) (rrIntervals : List ℚ) : HRVMetrics where
  rmssd := calculateRMSSD sqrtFn rrIntervals
  sdnn := calculateSDNN sqrtFn rrIntervals
  pnn50 := calculatePNN50 rrIntervals
  triangularIndex := calculateTriangularIndex rrIntervals
  lfhf := calculateLFHF rrIntervals
  sampleCount := rrIntervals.length
  assessment := getHRVAssessment sqrtFn rrIntervals

/-- `HRVCalculator.getPhysiologicalState` (the source's `getMentalState` is a
verbatim duplicate of this function). -/
def getPhysiologicalState (sqrtFn : ℚ → ℚ) (rrIntervals : List ℚ) : String × ℚ :=
  let metrics := getAllMetrics sqrtFn rrIntervals
  if metrics.sampleCount < 30 then ("Analyzing", 0)
  else
    let RMSSD := metrics.rmssd
    let SDNN := metrics.sdnn
    let pNN50 := metrics.pnn50
    let LF_HF := metrics.lfhf.2.2
    let entropy := metrics.triangularIndex / 20
    let meanRR := if 0 < rrIntervals.length then rrIntervals.sum / (rrIntervals.length : ℚ) else 0
    let BPM := if 0 < meanRR then 60 / (meanRR / 1000) else 0
    let sc : String × ℚ :=
      if RMSSD < 25 ∧ SDNN < 50 ∧ 90 < BPM then
        ("High Stress", 7/10 + (90 - RMSSD) / 100)
      else if 40 < RMSSD ∧ 30 < pNN50 ∧ LF_HF < 3/2 then
        ("Relaxed", 7/10 + (RMSSD - 40) / 100)
      else if pNN50 < 10 ∧ 2 < LF_HF then
        ("Focused", 7/10 + (LF_HF - 2) / 3)
      else if SDNN < 30 ∧ entropy < 3/5 then
        ("Fatigue", 7/10 + (3/5 - entropy) / (1/2))
      else
        let stressDistance := min (|RMSSD - 25| / 25) (min (|SDNN - 50| / 50) (|BPM - 90| / 90))
        let relaxedDistance := min (|RMSSD - 40| / 40) (min (|pNN50 - 30| / 30) (|LF_HF - 3/2| / (3/2)))
        let focusedDistance := min (|pNN50 - 10| / 10) (|LF_HF - 2| / 2)
        let fatigueDistance := min (|SDNN - 30| / 30) (|entropy - 3/5| / (3/5))
        ("Neutral", 3/5 + min stressDistance (min relaxedDistance (min focusedDistance fatigueDistance)) * (2/5))
    (sc.1, min (95/100) sc.2)

/-! ## Claims C6, C7, C9, C10 -/

theorem addRRInterval_length_le {rr : List ℚ} (x : ℚ) (h : rr.length ≤ 300) :
    (addRRInterval rr x).length ≤ 300 := by
  unfold addRRInterval
  split_ifs with h1 h2
  · rw [List.length_tail, List.length_append]
    simp only [List.length_singleton]
    omega
  · rw [List.length_append] at h2 ⊢
    simp only [List.length_singleton] at h2 ⊢
    omega
  · exact h

theorem addRRIntervals_length_le (xs : List ℚ) :
    ∀ rr : List ℚ, rr.length ≤ 300 → (addRRIntervals rr xs).length ≤ 300 := by
  induction xs with
  | nil => intro rr h; simpa [addRRIntervals] using h
  | cons x xs ih =>
    intro rr h
    simpa [addRRIntervals, List.foldl_cons] using ih _ (addRRInterval_length_le x h)

theorem addRRIntervals_valid_eq (xs : List ℚ) :
    ∀ rr : List ℚ, rr.length ≤ 300 → (∀ x ∈ xs, 300 < x ∧ x < 2000) →
      addRRIntervals rr xs = (rr ++ xs).drop (rr.length + xs.length - 300) := by
  induction xs with
  | nil =>
    intro rr h _
    have h0 : rr.length + ([] : List ℚ).length - 300 = 0 := by
      simp only [List.length_nil]
      omega
    rw [addRRIntervals, List.foldl_nil, h0, List.append_nil, List.drop_zero]
  | cons x xs ih =>
    intro rr h hv
    have hx := hv x (List.mem_cons_self x xs)
    have hstep : addRRIntervals rr (x :: xs) = addRRIntervals (addRRInterval rr x) xs := by
      rw [addRRIntervals, List.foldl_cons]
      rfl
    rw [hstep]
    by_cases hlen : rr.length < 300
    · have haccept : addRRInterval rr x = rr ++ [x] := by
        unfold addRRInterval
        rw [if_pos hx, if_neg (by rw [List.length_append, List.length_singleton]; omega)]
      have hlen2 : (rr ++ [x]).length ≤ 300 := by
        rw [List.length_append, List.length_singleton]; omega
      rw [haccept, ih _ hlen2 (fun y hy => hv y (List.mem_cons_of_mem _ hy))]
      have hamt : (rr ++ [x]).length + xs.length - 300 = rr.length + (x :: xs).length - 300 := by
        rw [List.length_append, List.length_singleton, List.length_cons]
        omega
      rw [hamt, List.append_assoc, List.singleton_append]
    · have hlen300 : rr.length = 300 := by omega
      have hne : rr ≠ [] := by
        intro hcon; rw [hcon] at hlen300; simp at hlen300
      have haccept : addRRInterval rr x = (rr ++ [x]).tail := by
        unfold addRRInterval
        rw [if_pos hx, if_pos (by rw [List.length_append, List.length_singleton]; omega)]
      have htail_len : (rr ++ [x]).tail.length = 300 := by
        rw [List.length_tail, List.length_append, List.length_singleton]
        omega
      have htail_le : (rr ++ [x]).tail.length ≤ 300 := by omega
      rw [haccept, ih _ htail_le (fun y hy => hv y (List.mem_cons_of_mem _ hy))]
      have h1 : (rr ++ [x]).tail ++ xs = (rr ++ x :: xs).tail := by
        rw [List.tail_append_of_ne_nil hne, List.tail_append_of_ne_nil hne,
          List.append_assoc, List.singleton_append]
      have h2 : rr.length + (x :: xs).length - 300 = xs.length + 1 := by
        rw [List.length_cons]
        omega
      have h3 : (rr ++ [x]).tail.length + xs.length - 300 = xs.length := by omega
      rw [h1, h2, h3]
      rw [show xs.length + 1 = 1 + xs.length by omega, ← List.drop_drop, List.drop_one]

/-- C6: after any sequence of `addRRInterval` calls from the initial (empty)
buffer the RR buffer holds at most 300 intervals, and after appending 500
intervals that are all accepted by the validity filter it holds exactly the
most recent 300 of them, in arrival order. -/
theorem C6_rr_history_bound :
    (∀ xs : List ℚ, (addRRIntervals [] xs).length ≤ 300) ∧
    (∀ xs : List ℚ, (∀ x ∈ xs, 300 < x ∧ x < 2000) → xs.length = 500 →
      addRRIntervals [] xs = xs.drop 200) := by
  constructor
  · intro xs
    exact addRRIntervals_length_le xs [] (by simp)
  · intro xs hv hlen
    have h := addRRIntervals_valid_eq xs [] (by simp) hv
    rw [List.nil_append] at h
    have h0 : ([] : List ℚ).length + xs.length - 300 = 200 := by
      rw [List.length_nil, hlen]
    rw [h0] at h
    exact h

theorem C6_rr_history_bound_witness :
    addRRIntervals [] (List.replicate 500 (1000 : ℚ)) =
      (List.replicate 500 (1000 : ℚ)).drop 200 :=
  C6_rr_history_bound.2 _ (by intro x hx; rcases List.eq_of_mem_replicate hx with rfl; norm_num)
    (by rw [List.length_replicate])

/-- C7 counterexample: `300` lies in the closed range `[300, 2000]` yet
`addRRInterval` rejects it (the source tests `interval > 300`, strictly), so
the claimed closed-range iff is false at input 300. -/
theorem C7_counterexample :
    addRRInterval [] 300 = [] ∧ (300 : ℚ) ∈ Set.Icc (300 : ℚ) 2000 := by
  constructor
  · unfold addRRInterval
    norm_num
  · constructor <;> norm_num

/-- C7 (amended): `addRRInterval` appends the interval at the end of the buffer
(evicting the oldest entry when the buffer is full) iff the interval lies in the
open range `(300, 2000)`; a rejected interval leaves the buffer unchanged. -/
theorem C7_open_range_filter (rr : List ℚ) (x : ℚ) (h : rr.length ≤ 300) :
    addRRInterval rr x =
      if 300 < x ∧ x < 2000 then (rr ++ [x]).drop (rr.length + 1 - 300) else rr := by
  unfold addRRInterval
  by_cases hc : 300 < x ∧ x < 2000
  · rw [if_pos hc, if_pos hc]
    by_cases hlen : rr.length < 300
    · rw [if_neg (by rw [List.length_append, List.length_singleton]; omega)]
      have h0 : rr.length + 1 - 300 = 0 := by omega
      rw [h0, List.drop_zero]
    · have hlen300 : rr.length = 300 := by omega
      rw [if_pos (by rw [List.length_append, List.length_singleton]; omega)]
      have h0 : rr.length + 1 - 300 = 1 := by omega
      rw [h0, List.drop_one]
  · rw [if_neg hc, if_neg hc]

theorem C7_open_range_filter_witness :
    addRRInterval [] 500 = if (300 : ℚ) < 500 ∧ (500 : ℚ) < 2000 then
      (([] : List ℚ) ++ [500]).drop (([] : List ℚ).length + 1 - 300) else ([] : List ℚ) :=
  C7_open_range_filter [] 500 (by simp)

/-- C9: with fewer than 30 buffered RR intervals, `getPhysiologicalState`
returns the state `"Analyzing"` with confidence exactly 0. -/
theorem C9_analyzing_state (sqrtFn : ℚ → ℚ) (rrIntervals : List ℚ)
    (h : rrIntervals.length < 30) :
    getPhysiologicalState sqrtFn rrIntervals = ("Analyzing", 0) := by
  unfold getPhysiologicalState
  rw [if_pos (by simpa [getAllMetrics] using h)]

theorem C9_analyzing_state_witness :
    getPhysiologicalState id [400, 500] = ("Analyzing", 0) :=
  C9_analyzing_state id [400, 500] (by simp)

/-- C10: with fewer than 30 buffered RR intervals, `calculateLFHFRatio`
returns `lf = 0`, `hf = 0` and `ratio = 0`. -/
theorem C10_lfhf_zero_below_30 (rrIntervals : List ℚ) (h : rrIntervals.length < 30) :
    calculateLFHF rrIntervals = (0, 0, 0) := by
  unfold calculateLFHF
  rw [if_pos h]

theorem C10_lfhf_zero_below_30_witness :
    calculateLFHF [400, 500, 600] = (0, 0, 0) :=
  C10_lfhf_zero_below_30 [400, 500, 600] (by simp)

/-! ## Filter chain (filters.ts)

Each biquad stage is `x0 = in - a1*z1 - a2*z2; out = b0*x0 + b1*z1 + b2*z2;
z2 := z1; z1 := x0`, with the source's exact decimal coefficients (exact
rationals here). -/

@[ext]
structure BiquadState where
  z1 : ℚ
  z2 : ℚ
deriving Repr, DecidableEq

@[ext]
structure NotchState where
  s0 : BiquadState
  s1 : BiquadState
deriving Repr, DecidableEq

@[ext]
structure ChainState where
  highpass : BiquadState
  lowpass : BiquadState
  notch : NotchState
deriving Repr, DecidableEq

/-- `HighpassFilter.process` (0.5 Hz highpass at 360 Hz). -/
def highpassProcess (st : BiquadState) (inputSample : ℚ) : ℚ × BiquadState :=
  let x0 := inputSample - (-1.98765881) * st.z1 - 0.98773450 * st.z2
  let output := 0.99384833 * x0 + (-1.98769666) * st.z1 + 0.99384833 * st.z2
  (output, ⟨x0, st.z1⟩)

/-- `LowpassFilter.process` (30 Hz lowpass at 360 Hz). -/
def lowpassProcess (st : BiquadState) (inputSample : ℚ) : ℚ × BiquadState :=
  let x0 := inputSample - (-1.27963242) * st.z1 - 0.47759225 * st.z2
  let output := 0.04948996 * x0 + 0.09897991 * st.z1 + 0.04948996 * st.z2
  (output, ⟨x0, st.z1⟩)

/-- `NotchFilter.process` (48-52 Hz band-stop, two cascaded biquad sections). -/
def notchProcess (st : NotchState) (inputSample : ℚ) : ℚ × NotchState :=
  let x0 := inputSample - (-1.21708497) * st.s0.z1 - 0.95085885 * st.s0.z2
  let out0 := 0.95183262 * x0 + (-1.22439830) * st.s0.z1 + 0.95183262 * st.s0.z2
  let x1 := out0 - (-1.29217906) * st.s1.z1 - 0.95280880 * st.s1.z2
  let out1 := 1.00000000 * x1 + (-1.28635883) * st.s1.z1 + 1.00000000 * st.s1.z2
  (out1, ⟨⟨x0, st.s0.z1⟩, ⟨x1, st.s1.z1⟩⟩)

/-- `ECGFilterChain.process`: the source applies highpass, then lowpass, then
notch ("Apply filters in sequence: HP -> LP -> Notch"). -/
def chainProcess (st : ChainState) (inputSample : ℚ) : ℚ × ChainState :=
  let r1 := highpassProcess st.highpass inputSample
  let r2 := lowpassProcess st.lowpass r1.1
  let r3 := notchProcess st.notch r2.1
  (r3.1, ⟨r1.2, r2.2, r3.2⟩)

/-- The composition claimed by the specification ("highpass → notch →
lowpass"), written from the spec's words for comparison with `chainProcess`. -/
def chainProcessSpecOrder (st : ChainState) (inputSample : ℚ) : ℚ × ChainState :=
  let r1 := highpassProcess st.highpass inputSample
  let r2 := notchProcess st.notch r1.1
  let r3 := lowpassProcess st.lowpass r2.1
  (r3.1, ⟨r1.2, r3.2, r2.2⟩)

/-- `ECGFilterChain.reset`: all delay taps zeroed. -/
def chainReset : ChainState := ⟨⟨0, 0⟩, ⟨0, 0⟩, ⟨⟨0, 0⟩, ⟨0, 0⟩⟩⟩

/-- Stream semantics of the chain: the outputs produced by feeding the samples
one at a time, threading the state. -/
def chainRun (st : ChainState) : List ℚ → List ℚ
  | [] => []
  | x :: xs => (chainProcess st x).1 :: chainRun (chainProcess st x).2 xs

/-- Stream semantics of the spec-order composition. -/
def chainRunSpecOrder (st : ChainState) : List ℚ → List ℚ
  | [] => []
  | x :: xs => (chainProcessSpecOrder st x).1 :: chainRunSpecOrder (chainProcessSpecOrder st x).2 xs

/-- The exact linear change of state coordinates under which the spec-order
cascade simulates the source's cascade (the two cascades realize the same
transfer function; this matrix conjugates one state-space realization into the
other). The highpass state is shared unchanged since both orders apply
highpass first. -/
def specOfCode (st : ChainState) : ChainState where
  highpass := st.highpass
  lowpass := ⟨
    (13725196939639323646707593044473008746097988898468293263589 : ℚ)/14150486965058438177497097155787050648383912507901696954108 * st.lowpass.z1 + (-106322516229361340556031414756730328363510114050464805865 : ℚ)/3537621741264609544374274288946762662095978126975424238527 * st.lowpass.z2 + (-5717462784467303077318895908275055629813380112448646586957 : ℚ)/14150486965058438177497097155787050648383912507901696954108 * st.notch.s0.z1 + (4162827146379687276562161754452348924945059300335835679165 : ℚ)/14150486965058438177497097155787050648383912507901696954108 * st.notch.s0.z2 + (230204761531476626537500000 : ℚ)/5756815242398482858395525397 * st.notch.s1.z1 + (1632378341538617626388919600 : ℚ)/5756815242398482858395525397 * st.notch.s1.z2,
    (106322516229361340556031414756730328363510114050464805865 : ℚ)/3537621741264609544374274288946762662095978126975424238527 * st.lowpass.z1 + (520563463697842841749745279523378351536065049612991390183 : ℚ)/505374534466372792053467755563823237442282589567917748361 * st.lowpass.z2 + (-1146279931499554598000434913316091609814475537743071972110 : ℚ)/3537621741264609544374274288946762662095978126975424238527 * st.notch.s0.z1 + (-103663951277374107017120794138987858616093681242709821503 : ℚ)/3537621741264609544374274288946762662095978126975424238527 * st.notch.s0.z2 + (-1713227608244820604500000000 : ℚ)/5756815242398482858395525397 * st.notch.s1.z1 + (2444001601919317165128941770 : ℚ)/5756815242398482858395525397 * st.notch.s1.z2⟩
  notch := ⟨⟨
    (627878862365860953678341823626 : ℚ)/614510209605183948951469084291 * st.lowpass.z1 + (93038981677624710200111057380 : ℚ)/614510209605183948951469084291 * st.lowpass.z2 + (-270128582861594649235375000000 : ℚ)/614510209605183948951469084291 * st.notch.s0.z1 + (-1787573461832608122384032435925 : ℚ)/614510209605183948951469084291 * st.notch.s0.z2,
    (-93038981677624710200111057380 : ℚ)/614510209605183948951469084291 * st.lowpass.z1 + (441800917810178491429775155771 : ℚ)/614510209605183948951469084291 * st.lowpass.z2 + (1879956695815165544690500000000 : ℚ)/614510209605183948951469084291 * st.notch.s0.z1 + (-2558195621589094531740045851785 : ℚ)/614510209605183948951469084291 * st.notch.s0.z2⟩, ⟨
    (6882354914362897907744229048640740180424198631120716415893 : ℚ)/7075243482529219088748548577893525324191956253950848477054 * st.lowpass.z1 + (473145551334816513580066869150621061676883911687046519415 : ℚ)/3537621741264609544374274288946762662095978126975424238527 * st.lowpass.z2 + (-3217311259423842598608134666138140909760587592149841072959 : ℚ)/7075243482529219088748548577893525324191956253950848477054 * st.notch.s0.z1 + (2044196045218650366376709568030753810068303247620323637805 : ℚ)/7075243482529219088748548577893525324191956253950848477054 * st.notch.s0.z2 + (195480501443484570800000000 : ℚ)/5756815242398482858395525397 * st.notch.s1.z1 + (-2353347802646583620082146050 : ℚ)/822402177485497551199360771 * st.notch.s1.z2,
    (-473145551334816513580066869150621061676883911687046519415 : ℚ)/3537621741264609544374274288946762662095978126975424238527 * st.lowpass.z1 + (9979545800464668234809969248027187237242524987603763885801 : ℚ)/14150486965058438177497097155787050648383912507901696954108 * st.lowpass.z2 + (-2209148986585374522563303562966597688100047658919106012085 : ℚ)/14150486965058438177497097155787050648383912507901696954108 * st.notch.s0.z1 + (-33703965864402765902563235810139107195941835262375155121 : ℚ)/505374534466372792053467755563823237442282589567917748361 * st.notch.s0.z2 + (2469905612381606488187500000 : ℚ)/822402177485497551199360771 * st.notch.s1.z1 + (-88581766744113743446288695905 : ℚ)/23027260969593931433582101588 * st.notch.s1.z2⟩⟩

theorem chainProcess_specOfCode (st : ChainState) (x : ℚ) :
    chainProcessSpecOrder (specOfCode st) x
      = ((chainProcess st x).1, specOfCode (chainProcess st x).2) := by
  simp only [chainProcess, chainProcessSpecOrder, highpassProcess, lowpassProcess,
    notchProcess, specOfCode]
  refine Prod.ext ?_ ?_
  · ring
  · refine ChainState.ext ?_ ?_ ?_
    · rfl
    · refine BiquadState.ext ?_ ?_ <;> ring
    · refine NotchState.ext (BiquadState.ext ?_ ?_) (BiquadState.ext ?_ ?_) <;> ring

theorem specOfCode_reset : specOfCode chainReset = chainReset := by
  simp only [specOfCode, chainReset]
  norm_num

theorem chainRun_specOfCode (xs : List ℚ) :
    ∀ st, chainRunSpecOrder (specOfCode st) xs = chainRun st xs := by
  induction xs with
  | nil => intro st; rfl
  | cons x xs ih =>
    intro st
    rw [chainRun, chainRunSpecOrder, chainProcess_specOfCode]
    exact congrArg _ (ih _)

/-- C5 counterexample: `ECGFilterChain.process` is not the claimed
highpass→notch→lowpass composition: at a state whose lowpass tap `z1` is 1,
the two return different outputs for the input sample 0. -/
theorem C5_counterexample :
    (chainProcess ⟨⟨0, 0⟩, ⟨1, 0⟩, ⟨⟨0, 0⟩, ⟨0, 0⟩⟩⟩ 0).1
      ≠ (chainProcessSpecOrder ⟨⟨0, 0⟩, ⟨1, 0⟩, ⟨⟨0, 0⟩, ⟨0, 0⟩⟩⟩ 0).1 := by
  norm_num [chainProcess, chainProcessSpecOrder, highpassProcess, lowpassProcess, notchProcess]

/-- C5 (amended): `ECGFilterChain.process` applies highpass, then lowpass,
then notch; nevertheless, starting from the reset state, the stream of returned
samples on every input equals that of the claimed highpass→notch→lowpass
composition, because the two linear cascades realize the same transfer
function. -/
theorem C5_chain_stream_equiv (xs : List ℚ) :
    chainRun chainReset xs = chainRunSpecOrder chainReset xs := by
  rw [← specOfCode_reset, chainRun_specOfCode, specOfCode_reset]

/-! ## Stable sorting (`Array.prototype.sort` with a consistent comparator)

A fuel-indexed stable merge sort; with fuel at least the list length it
computes the stable sorted permutation, which is what the ECMAScript `sort`
produces for the numeric comparators used in the source. -/

def jsMerge {α : Type} (le : α → α → Bool) : ℕ → List α → List α → List α
  | 0, xs, ys => xs ++ ys
  | _ + 1, [], ys => ys
  | _ + 1, x :: xs, [] => x :: xs
  | fuel + 1, x :: xs, y :: ys =>
    if le x y then x :: jsMerge le fuel xs (y :: ys)
    else y :: jsMerge le fuel (x :: xs) ys

def jsSort {α : Type} (le : α → α → Bool) : ℕ → List α → List α
  | 0, l => l
  | fuel + 1, l =>
    if l.length ≤ 1 then l
    else
      jsMerge le l.length
        (jsSort le fuel (l.take (l.length / 2)))
        (jsSort le fuel (l.drop (l.length / 2)))

theorem jsMerge_all_le {α : Type} (le : α → α → Bool) :
    ∀ (fuel : ℕ) (xs ys : List α), (∀ x ∈ xs, ∀ y ∈ ys, le x y = true) →
      jsMerge le fuel xs ys = xs ++ ys
  | 0, xs, ys, _ => rfl
  | _ + 1, [], ys, _ => rfl
  | _ + 1, _ :: _, [], _ => by simp [jsMerge]
  | fuel + 1, x :: xs, y :: ys, h => by
    rw [jsMerge, if_pos (h x (List.mem_cons_self x xs) y (List.mem_cons_self y ys))]
    rw [jsMerge_all_le le fuel xs (y :: ys)
      (fun a ha b hb => h a (List.mem_cons_of_mem _ ha) b hb)]
    rfl

theorem jsSort_eq_self {α : Type} (le : α → α → Bool) :
    ∀ (fuel : ℕ) (l : List α), l.Pairwise (fun a b => le a b = true) →
      jsSort le fuel l = l
  | 0, l, _ => rfl
  | fuel + 1, l, h => by
    rw [jsSort]
    split
    · rfl
    · have hsplit : l = l.take (l.length / 2) ++ l.drop (l.length / 2) :=
        (List.take_append_drop _ l).symm
      have hp : (l.take (l.length / 2) ++ l.drop (l.length / 2)).Pairwise
          (fun a b => le a b = true) := by rw [← hsplit]; exact h
      rw [List.pairwise_append] at hp
      rw [jsSort_eq_self le fuel _ hp.1, jsSort_eq_self le fuel _ hp.2.1,
        jsMerge_all_le le _ _ _ hp.2.2, ← hsplit]

/-! ## PQRSTDetector (pqrstDetector.ts) -/

inductive WaveType
  | P
  | Q
  | R
  | S
  | T
deriving DecidableEq, Repr

/-- `PQRSTPoint` of the source; `amplitude` is `none` when the source would
record `undefined` (a read outside the buffer). -/
structure PQRSTPoint where
  index : ℤ
  amplitude : Option ℚ
  type : WaveType
  absolutePosition : ℤ
deriving DecidableEq, Repr

/-- The source's minimum-scan loops (`for` over a window, strict update):
returns the first index attaining the minimum together with its value, with the
loop initialized at `data[start]`. -/
def scanMin (data : List ℚ) (start : ℤ) (idxs : List ℤ) : ℤ × Option ℚ :=
  idxs.foldl (fun acc i => if jlt (jget data i) acc.2 then (i, jget data i) else acc)
    (start, jget data start)

/-- Maximum-scan analogue of `scanMin`. -/
def scanMax (data : List ℚ) (start : ℤ) (idxs : List ℤ) : ℤ × Option ℚ :=
  idxs.foldl (fun acc i => if jgt (jget data i) acc.2 then (i, jget data i) else acc)
    (start, jget data start)

/-- `PQRSTDetector.isValidQRS`: a negative deflection within 60 ms both before
and after the peak, or a very high R amplitude. -/
def isValidQRS (sampleRate : ℚ) (data : List ℚ) (rIndex : ℤ) : Bool :=
  let qrsWindow := qfloor (qmul sampleRate (mkRat 6 100))
  let hasQWave := (intRange (max 0 (rIndex - qrsWindow)) rIndex).any
    (fun i => jlt (jget data i) (some 0))
  let hasSWave := (intRange (rIndex + 1) (min (data.length : ℤ) (rIndex + qrsWindow))).any
    (fun i => jlt (jget data i) (some 0))
  (hasQWave && hasSWave) || jgt (jget data rIndex) (some (mkRat 1 2))

/-- The body of the `peaksToProcess.forEach` in `PQRSTDetector.detectWaves`,
past the edge guard: locates Q, P, S, T around the validated R peak `r` (the
`k`-th entry of `valid`) and returns the five points in push order. -/
def detectWavesBeat (sampleRate : ℚ) (data : List ℚ) (valid : List ℤ) (k : ℕ) (r : ℤ)
    (currentIndex : ℤ) : List PQRSTPoint :=
  let rrInterval0 : ℚ :=
    if 0 < k then qofInt (r - (valid.get? (k - 1)).getD 0)
    else if k + 1 < valid.length then qofInt ((valid.get? (k + 1)).getD 0 - r)
    else sampleRate
  let rrInterval : ℚ :=
    if qlt rrInterval0 (qmul sampleRate (mkRat 3 10)) then
      qofInt (qfloor (qmul sampleRate (mkRat 3 10)))
    else if qlt (qmul sampleRate (mkRat 15 10)) rrInterval0 then
      qofInt (qfloor (qmul sampleRate (mkRat 15 10)))
    else rrInterval0
  let qWindowSize := min (qfloor (qmul rrInterval (mkRat 8 100))) 18
  let qWindowStart := max 0 (r - qWindowSize)
  let q := scanMin data qWindowStart (intRange qWindowStart r)
  let pWindowSize := min (qfloor (qmul rrInterval (mkRat 15 100))) 27
  let pWindowStart := max 0 (q.1 - pWindowSize)
  let pWindowEnd := max pWindowStart (q.1 - qfloor (qmul rrInterval (mkRat 1 100)))
  let p := scanMax data pWindowStart (intRange pWindowStart pWindowEnd)
  let sWindowSize := min (qfloor (qmul rrInterval (mkRat 8 100))) 18
  let sWindowStart := r + 1
  let sWindowEnd := min ((data.length : ℤ) - 1) (r + sWindowSize)
  let s := scanMin data sWindowStart (intRange sWindowStart (sWindowEnd + 1))
  let tStartOffset := qfloor (qmul rrInterval (mkRat 15 100))
  let tWindowSize := min (qfloor (qmul rrInterval (mkRat 25 100))) 54
  let tWindowStart := s.1 + tStartOffset
  let tWindowEnd := min ((data.length : ℤ) - 1) (tWindowStart + tWindowSize)
  let t := scanMax data tWindowStart (intRange tWindowStart (tWindowEnd + 1))
  [⟨r, jget data r, WaveType.R, currentIndex + r⟩,
   ⟨q.1, q.2, WaveType.Q, currentIndex + q.1⟩,
   ⟨p.1, p.2, WaveType.P, currentIndex + p.1⟩,
   ⟨s.1, s.2, WaveType.S, currentIndex + s.1⟩,
   ⟨t.1, t.2, WaveType.T, currentIndex + t.1⟩]

/-- `PQRSTDetector.detectWaves`. -/
def detectWaves (sampleRate : ℚ) (data : List ℚ) (rPeaks : List ℤ) (currentIndex : ℤ) :
    List PQRSTPoint :=
  let validRPeaks := rPeaks.filter (fun p => isValidQRS sampleRate data p)
  if validRPeaks.length = 0 then []
  else
    (validRPeaks.enum.map (fun kr =>
      if kr.2 < 9 ∨ (data.length : ℤ) - 9 ≤ kr.2 then []
      else detectWavesBeat sampleRate data validRPeaks kr.1 kr.2 currentIndex)).flatten

/-- Local-maximum check inside the direct R scan of `detectDirectWaves`. -/
def isDirectLocalMax (data : List ℚ) (peakWindow : ℤ) (i : ℤ) : Bool :=
  !((intRange (max 0 (i - peakWindow)) (min ((data.length : ℤ) - 1) (i + peakWindow) + 1)).any
    (fun j => (j != i) && jgt (jget data j) (jget data i)))

/-- The direct R-peak scan loop of `detectDirectWaves`: skip below-threshold
samples, accept window-local maxima and jump `skipWindow` ahead after each
acceptance. Fuel-indexed; the call site supplies enough fuel for every
iteration the JS loop performs. -/
def scanRPeaks (data : List ℚ) (rThreshold : ℚ) (peakWindow skipWindow : ℤ) :
    ℕ → ℤ → List ℤ
  | 0, _ => []
  | fuel + 1, i =>
    if i < (data.length : ℤ) - peakWindow then
      if jlt (jget data i) (some rThreshold) then
        scanRPeaks data rThreshold peakWindow skipWindow fuel (i + 1)
      else if isDirectLocalMax data peakWindow i then
        i :: scanRPeaks data rThreshold peakWindow skipWindow fuel (i + skipWindow + 1)
      else scanRPeaks data rThreshold peakWindow skipWindow fuel (i + 1)
    else []

/-- `PQRSTDetector.detectDirectWaves`: compute amplitude statistics (the
source's `mean` is computed but never used, so it is omitted), abort on weak
signals, scan for R peaks, and delegate to `detectWaves`. -/
def detectDirectWaves (sampleRate : ℚ) (data : List ℚ) (currentIndex : ℤ) :
    List PQRSTPoint :=
  let dataLength := data.length
  let sortedData := jsSort (fun a b : ℚ => qle b a) dataLength data
  let topValues := sortedData.take (qfloor (qmul (qofNat dataLength) (mkRat 5 100))).toNat
  let maxValue := topValues.headD 0
  if qlt maxValue (mkRat 2 10) then []
  else
    let rThreshold := qmul maxValue (mkRat 6 10)
    let peakWindow := qfloor (qmul sampleRate (mkRat 8 100))
    let skipWindow := qfloor (qmul sampleRate (mkRat 15 100))
    let rPeaks := scanRPeaks data rThreshold peakWindow skipWindow
      (dataLength + 2 * peakWindow.natAbs + 2) peakWindow
    if rPeaks.length ≠ 0 then detectWaves sampleRate data rPeaks currentIndex
    else []

/-! ## detectRPeaksECG (rPeakDetector.ts)

The version in `src/lib/rPeakDetector.ts`, which performs no input validation
(a sibling copy of the file adds empty-signal and sample-rate validation; it is
not the one modelled here). The `console.log` statistics are omitted. -/

/-- `detectRPeaksECG`: direct detection, then — when `adaptiveThreshold` is
set and the first pass found nothing — an amplitude-normalized retry. -/
def detectRPeaksECG (signal : List ℚ) (sampleRate : ℚ) (adaptiveThreshold : Bool) :
    List ℤ :=
  let points := detectDirectWaves sampleRate signal 0
  let peaks := (points.filter (fun p => p.type = WaveType.R)).map PQRSTPoint.index
  if peaks.length ≠ 0 then peaks
  else if adaptiveThreshold then
    let maxAbs2 := (signal.map qabs).foldl qmax (mkRat 1 1000000)
    if qlt 0 maxAbs2 then
      ((detectDirectWaves sampleRate (signal.map (fun x => qdiv x maxAbs2)) 0).filter
        (fun p => p.type = WaveType.R)).map PQRSTPoint.index
    else peaks
  else peaks

/-- `detectDirectWaves` at `sampleRate = NaN` (`detectRPeaksECG(signal, NaN)`
constructs the detector with a NaN rate): `peakWindow = Math.floor(NaN * 0.08)`
is NaN, and the scan loop `for (let i = NaN; i < dataLength - NaN; i++)` runs
zero iterations because every comparison against NaN is false, so `rPeaks`
stays empty and both branches after the weak-signal check return `[]`. -/
def detectDirectWavesNanRate (data : List ℚ) : List PQRSTPoint :=
  let sortedData := jsSort (fun a b : ℚ => qle b a) data.length data
  let topValues := sortedData.take (qfloor (qmul (qofNat data.length) (mkRat 5 100))).toNat
  let maxValue := topValues.headD 0
  if qlt maxValue (mkRat 2 10) then []
  else []

/-- `detectRPeaksECG` at `sampleRate = NaN`, delegating to
`detectDirectWavesNanRate` for both passes. -/
def detectRPeaksECGNanRate (signal : List ℚ) (adaptiveThreshold : Bool) : List ℤ :=
  let points := detectDirectWavesNanRate signal
  let peaks := (points.filter (fun p => p.type = WaveType.R)).map PQRSTPoint.index
  if peaks.length ≠ 0 then peaks
  else if adaptiveThreshold then
    let maxAbs2 := (signal.map qabs).foldl qmax (mkRat 1 1000000)
    if qlt 0 maxAbs2 then
      ((detectDirectWavesNanRate (signal.map (fun x => qdiv x maxAbs2))).filter
        (fun p => p.type = WaveType.R)).map PQRSTPoint.index
    else peaks
  else peaks

/-! ## Claim C2 -/

theorem detectDirectWaves_nil (sampleRate : ℚ) (currentIndex : ℤ) :
    detectDirectWaves sampleRate [] currentIndex = [] := rfl

theorem detectDirectWavesNanRate_eq_nil (data : List ℚ) :
    detectDirectWavesNanRate data = [] := by
  unfold detectDirectWavesNanRate
  simp only [ite_self]

/-- C2 (amended): `detectRPeaksECG` returns the empty list (and, being total,
throws nothing) for an empty signal at every sample rate, and for a NaN sample
rate on every signal, with either option setting. The claimed sample-rate-0
guarantee is dropped: the function performs no input validation and rate 0 can
return peaks (see the counterexample). -/
theorem C2_degenerate_inputs :
    (∀ (sampleRate : ℚ) (adaptiveThreshold : Bool),
        detectRPeaksECG [] sampleRate adaptiveThreshold = []) ∧
    (∀ (signal : List ℚ) (adaptiveThreshold : Bool),
        detectRPeaksECGNanRate signal adaptiveThreshold = []) := by
  constructor
  · intro sampleRate b
    have hq : qlt 0 (mkRat 1 1000000) = true := by decide
    unfold detectRPeaksECG
    simp only [detectDirectWaves_nil, List.filter_nil, List.map_nil, List.length_nil,
      List.foldl_nil, hq]
    cases b <;> simp
  · intro signal b
    unfold detectRPeaksECGNanRate
    simp only [detectDirectWavesNanRate_eq_nil, List.filter_nil, List.map_nil,
      List.length_nil]
    cases b <;> simp

/-- The concrete 20-sample signal witnessing the sample-rate-0 failure: a
single full-scale spike at index 10. -/
def c2sig : List ℚ :=
  [0, 0, 0, 0, 0, 0, 0, 0, 0, 0, 1, 0, 0, 0, 0, 0, 0, 0, 0, 0]

set_option maxRecDepth 40000 in
/-- C2 counterexample: with sample rate 0 (zero-width windows are not
rejected), `detectRPeaksECG` returns the peak list `[10]`, not `[]`. -/
theorem C2_counterexample :
    detectRPeaksECG c2sig 0 true = [10] ∧ detectRPeaksECG c2sig 0 true ≠ [] := by
  constructor
  · decide
  · decide

/-! ## Claim C8 -/

theorem qfloor_nonneg {a : ℚ} (h : 0 ≤ a) : 0 ≤ qfloor a := by
  rw [qfloor_eq]
  exact Int.floor_nonneg.mpr h

theorem qfloor_qmul_mkRat_nonneg (rr : ℚ) (hrr : 0 ≤ rr) (n : ℤ) (hn : 0 ≤ n) (d : ℕ) :
    0 ≤ qfloor (qmul rr (mkRat n d)) := by
  apply qfloor_nonneg
  rw [qmul_eq]
  apply mul_nonneg hrr
  rw [Rat.mkRat_eq_div]
  apply div_nonneg
  · exact_mod_cast hn
  · exact_mod_cast Nat.zero_le d

/-- The R-to-R interval estimate of `detectWaves` is clamped to a nonnegative
value at 360 Hz, whatever the raw estimate. -/
theorem rrClamp_nonneg (rr0 : ℚ) :
    (0 : ℚ) ≤
      (if qlt rr0 (qmul 360 (mkRat 3 10)) then qofInt (qfloor (qmul 360 (mkRat 3 10)))
       else if qlt (qmul 360 (mkRat 15 10)) rr0 then qofInt (qfloor (qmul 360 (mkRat 15 10)))
       else rr0) := by
  have h108 : qofInt (qfloor (qmul (360 : ℚ) (mkRat 3 10))) = (108 : ℚ) := by decide
  have h540 : qofInt (qfloor (qmul (360 : ℚ) (mkRat 15 10))) = (540 : ℚ) := by decide
  have hval : qmul (360 : ℚ) (mkRat 3 10) = (108 : ℚ) := by decide
  split_ifs with h1 h2
  · rw [h108]; norm_num
  · rw [h540]; norm_num
  · have hle : qmul 360 (mkRat 3 10) ≤ rr0 := by
      by_contra hc
      exact h1 ((qlt_iff _ _).mpr (lt_of_not_le hc))
    rw [hval] at hle
    linarith

theorem scanFold_fst_mem (cmp : Option ℚ → Option ℚ → Bool) (data : List ℚ) :
    ∀ (idxs : List ℤ) (acc : ℤ × Option ℚ),
      (idxs.foldl (fun acc i => if cmp (jget data i) acc.2 then (i, jget data i) else acc)
          acc).1 = acc.1 ∨
      (idxs.foldl (fun acc i => if cmp (jget data i) acc.2 then (i, jget data i) else acc)
          acc).1 ∈ idxs
  | [], _ => Or.inl rfl
  | i :: is, acc => by
    rw [List.foldl_cons]
    rcases scanFold_fst_mem cmp data is
        (if cmp (jget data i) acc.2 then (i, jget data i) else acc) with h | h
    · rw [h]
      by_cases hc : cmp (jget data i) acc.2 = true
      · rw [if_pos hc]
        exact Or.inr (List.mem_cons_self _ _)
      · rw [if_neg hc]
        exact Or.inl rfl
    · exact Or.inr (List.mem_cons_of_mem _ h)

theorem scanMin_fst_cases (data : List ℚ) (a b : ℤ) :
    (scanMin data a (intRange a b)).1 = a ∨
      (a ≤ (scanMin data a (intRange a b)).1 ∧ (scanMin data a (intRange a b)).1 < b) := by
  unfold scanMin
  rcases scanFold_fst_mem jlt data (intRange a b) (a, jget data a) with h | h
  · exact Or.inl h
  · exact Or.inr (mem_intRange.mp h)

theorem scanMax_fst_cases (data : List ℚ) (a b : ℤ) :
    (scanMax data a (intRange a b)).1 = a ∨
      (a ≤ (scanMax data a (intRange a b)).1 ∧ (scanMax data a (intRange a b)).1 < b) := by
  unfold scanMax
  rcases scanFold_fst_mem jgt data (intRange a b) (a, jget data a) with h | h
  · exact Or.inl h
  · exact Or.inr (mem_intRange.mp h)

/-- Index bounds for the five points of one beat at 360 Hz: all indices are
nonnegative, the R, Q, P and S indices stay inside the buffer, and the R index
respects the 9-sample edge margin. (The T index has no in-buffer guarantee.) -/
theorem detectWavesBeat_bounds (data : List ℚ) (valid : List ℤ) (k : ℕ) (r ci : ℤ)
    (h9 : 9 ≤ r) (hlt : r < (data.length : ℤ) - 9) :
    ∀ pt ∈ detectWavesBeat 360 data valid k r ci,
      (0 ≤ pt.index ∧ (pt.type ≠ WaveType.T → pt.index < (data.length : ℤ))) ∧
      (pt.type = WaveType.R → 9 ≤ pt.index ∧ pt.index < (data.length : ℤ) - 9) := by
  intro pt hpt
  unfold detectWavesBeat at hpt
  simp only [List.mem_cons, List.not_mem_nil, or_false] at hpt
  set RR0 : ℚ :=
    (if 0 < k then qofInt (r - (valid.get? (k - 1)).getD 0)
     else if k + 1 < valid.length then qofInt ((valid.get? (k + 1)).getD 0 - r)
     else 360) with hRR0
  set RR : ℚ :=
    (if qlt RR0 (qmul 360 (mkRat 3 10)) then qofInt (qfloor (qmul 360 (mkRat 3 10)))
     else if qlt (qmul 360 (mkRat 15 10)) RR0 then qofInt (qfloor (qmul 360 (mkRat 15 10)))
     else RR0) with hRR
  have hrrnn : (0 : ℚ) ≤ RR := by rw [hRR]; exact rrClamp_nonneg RR0
  have hqws : 0 ≤ min (qfloor (qmul RR (mkRat 8 100))) 18 := by
    have := qfloor_qmul_mkRat_nonneg RR hrrnn 8 (by norm_num) 100
    omega
  have hpws : 0 ≤ min (qfloor (qmul RR (mkRat 15 100))) 27 := by
    have := qfloor_qmul_mkRat_nonneg RR hrrnn 15 (by norm_num) 100
    omega
  have hgap : 0 ≤ qfloor (qmul RR (mkRat 1 100)) :=
    qfloor_qmul_mkRat_nonneg RR hrrnn 1 (by norm_num) 100
  have htso : 0 ≤ qfloor (qmul RR (mkRat 15 100)) :=
    qfloor_qmul_mkRat_nonneg RR hrrnn 15 (by norm_num) 100
  -- bounds for the Q index, reused by the P and Q cases
  have hqidx :
      0 ≤ (scanMin data (max 0 (r - min (qfloor (qmul RR (mkRat 8 100))) 18))
          (intRange (max 0 (r - min (qfloor (qmul RR (mkRat 8 100))) 18)) r)).1 ∧
      (scanMin data (max 0 (r - min (qfloor (qmul RR (mkRat 8 100))) 18))
          (intRange (max 0 (r - min (qfloor (qmul RR (mkRat 8 100))) 18)) r)).1 ≤ r := by
    rcases scanMin_fst_cases data (max 0 (r - min (qfloor (qmul RR (mkRat 8 100))) 18)) r
      with h | ⟨ha, hb⟩
    · rw [h]
      omega
    · omega
  -- bounds for the S index, reused by the S and T cases
  have hsidx :
      r + 1 ≤ (scanMin data (r + 1)
          (intRange (r + 1)
            (min ((data.length : ℤ) - 1) (r + min (qfloor (qmul RR (mkRat 8 100))) 18) + 1))).1 ∧
      (scanMin data (r + 1)
          (intRange (r + 1)
            (min ((data.length : ℤ) - 1) (r + min (qfloor (qmul RR (mkRat 8 100))) 18) + 1))).1
        < (data.length : ℤ) := by
    rcases scanMin_fst_cases data (r + 1)
        (min ((data.length : ℤ) - 1) (r + min (qfloor (qmul RR (mkRat 8 100))) 18) + 1)
      with h | ⟨ha, hb⟩
    · rw [h]
      omega
    · omega
  rcases hpt with rfl | rfl | rfl | rfl | rfl
  · -- R point
    refine ⟨⟨?_, fun _ => ?_⟩, fun _ => ⟨?_, ?_⟩⟩ <;> dsimp only <;> omega
  · -- Q point
    refine ⟨⟨?_, fun _ => ?_⟩, fun h => ?_⟩
    · dsimp only
      omega
    · dsimp only
      omega
    · dsimp only at h
      exact absurd h (by decide)
  · -- P point
    rcases scanMax_fst_cases data
        (max 0 ((scanMin data (max 0 (r - min (qfloor (qmul RR (mkRat 8 100))) 18))
            (intRange (max 0 (r - min (qfloor (qmul RR (mkRat 8 100))) 18)) r)).1 -
          min (qfloor (qmul RR (mkRat 15 100))) 27))
        (max (max 0 ((scanMin data (max 0 (r - min (qfloor (qmul RR (mkRat 8 100))) 18))
            (intRange (max 0 (r - min (qfloor (qmul RR (mkRat 8 100))) 18)) r)).1 -
          min (qfloor (qmul RR (mkRat 15 100))) 27))
          ((scanMin data (max 0 (r - min (qfloor (qmul RR (mkRat 8 100))) 18))
            (intRange (max 0 (r - min (qfloor (qmul RR (mkRat 8 100))) 18)) r)).1 -
            qfloor (qmul RR (mkRat 1 100))))
      with h | ⟨ha, hb⟩
    · refine ⟨⟨?_, fun _ => ?_⟩, fun hc => ?_⟩
      · dsimp only
        omega
      · dsimp only
        omega
      · dsimp only at hc
        exact absurd hc (by decide)
    · refine ⟨⟨?_, fun _ => ?_⟩, fun hc => ?_⟩
      · dsimp only
        omega
      · dsimp only
        omega
      · dsimp only at hc
        exact absurd hc (by decide)
  · -- S point
    refine ⟨⟨?_, fun _ => ?_⟩, fun hc => ?_⟩
    · dsimp only
      omega
    · dsimp only
      omega
    · dsimp only at hc
      exact absurd hc (by decide)
  · -- T point
    rcases scanMax_fst_cases data
        ((scanMin data (r + 1)
            (intRange (r + 1)
              (min ((data.length : ℤ) - 1) (r + min (qfloor (qmul RR (mkRat 8 100))) 18) + 1))).1
          + qfloor (qmul RR (mkRat 15 100)))
        (min ((data.length : ℤ) - 1)
          ((scanMin data (r + 1)
            (intRange (r + 1)
              (min ((data.length : ℤ) - 1) (r + min (qfloor (qmul RR (mkRat 8 100))) 18) + 1))).1
            + qfloor (qmul RR (mkRat 15 100)) + min (qfloor (qmul RR (mkRat 25 100))) 54) + 1)
      with h | ⟨ha, hb⟩
    · refine ⟨⟨?_, fun hc => ?_⟩, fun hc => ?_⟩
      · dsimp only
        omega
      · dsimp only at hc
        exact absurd rfl hc
      · dsimp only at hc
        exact absurd hc (by decide)
    · refine ⟨⟨?_, fun hc => ?_⟩, fun hc => ?_⟩
      · dsimp only
        omega
      · dsimp only at hc
        exact absurd rfl hc
      · dsimp only at hc
        exact absurd hc (by decide)

/-- Index bounds for `detectWaves` output (shared by the C8 theorem). -/
theorem detectWaves_index_bounds (data : List ℚ) (rPeaks : List ℤ) (ci : ℤ) :
    ∀ pt ∈ detectWaves 360 data rPeaks ci,
      (0 ≤ pt.index ∧ (pt.type ≠ WaveType.T → pt.index < (data.length : ℤ))) ∧
      (pt.type = WaveType.R → 9 ≤ pt.index ∧ pt.index < (data.length : ℤ) - 9) := by
  intro pt hpt
  unfold detectWaves at hpt
  dsimp only at hpt
  split at hpt
  · cases hpt
  · simp only [List.mem_flatten, List.mem_map] at hpt
    obtain ⟨l, ⟨kr, hkr, rfl⟩, hptl⟩ := hpt
    split at hptl
    · cases hptl
    · next hedge =>
      push_neg at hedge
      exact detectWavesBeat_bounds data _ kr.1 kr.2 ci (by omega) (by omega) pt hptl

/-- C8 (amended): every P, Q, R and S point returned by
`PQRSTDetector.detectWaves` (and hence by `detectDirectWaves`) at 360 Hz has
its index inside `[0, data.length)`; every returned R index moreover respects
the 9-sample edge margin, so beats whose R peak lies within 9 samples of either
edge contribute no points. T points always have nonnegative index but can fall
beyond the end of the buffer (their amplitude is then read out of range); the
claimed in-buffer bound fails for them (see the counterexample). -/
theorem C8_index_bounds :
    (∀ (data : List ℚ) (rPeaks : List ℤ) (ci : ℤ),
      ∀ pt ∈ detectWaves 360 data rPeaks ci,
        (0 ≤ pt.index ∧ (pt.type ≠ WaveType.T → pt.index < (data.length : ℤ))) ∧
        (pt.type = WaveType.R → 9 ≤ pt.index ∧ pt.index < (data.length : ℤ) - 9)) ∧
    (∀ (data : List ℚ) (ci : ℤ),
      ∀ pt ∈ detectDirectWaves 360 data ci,
        (0 ≤ pt.index ∧ (pt.type ≠ WaveType.T → pt.index < (data.length : ℤ))) ∧
        (pt.type = WaveType.R → 9 ≤ pt.index ∧ pt.index < (data.length : ℤ) - 9)) := by
  refine ⟨detectWaves_index_bounds, ?_⟩
  intro data ci pt hpt
  unfold detectDirectWaves at hpt
  dsimp only at hpt
  split at hpt
  · cases hpt
  · split at hpt
    · exact detectWaves_index_bounds data _ ci pt hpt
    · cases hpt

/-- The 19-sample buffer (minimum size admitting an interior R peak) used for
the C8 counterexample: a spike at index 9. -/
def c8data : List ℚ :=
  [0, 0, 0, 0, 0, 0, 0, 0, 0, 1, 0, 0, 0, 0, 0, 0, 0, 0, 0]

set_option maxRecDepth 40000 in
theorem C8_index_bounds_witness :
    (0 ≤ (⟨9, some 1, WaveType.R, 9⟩ : PQRSTPoint).index ∧
      ((⟨9, some 1, WaveType.R, 9⟩ : PQRSTPoint).type ≠ WaveType.T →
        (⟨9, some 1, WaveType.R, 9⟩ : PQRSTPoint).index < (c8data.length : ℤ))) ∧
    ((⟨9, some 1, WaveType.R, 9⟩ : PQRSTPoint).type = WaveType.R →
      9 ≤ (⟨9, some 1, WaveType.R, 9⟩ : PQRSTPoint).index ∧
        (⟨9, some 1, WaveType.R, 9⟩ : PQRSTPoint).index < (c8data.length : ℤ) - 9) :=
  C8_index_bounds.1 c8data [9] 0 ⟨9, some 1, WaveType.R, 9⟩ (by decide)

set_option maxRecDepth 40000 in
/-- C8 counterexample: on the 19-sample buffer `c8data` with the single
(valid, interior) R peak at index 9, `detectWaves` emits the point indices
`[9, 0, 0, 10, 64]` — the T point lands at index 64, far outside the buffer,
so not every returned point reads its amplitude inside the analyzed buffer. -/
theorem C8_counterexample :
    (detectWaves 360 c8data [9] 0).map PQRSTPoint.index = [9, 0, 0, 10, 64] ∧
    ((detectWaves 360 c8data [9] 0).any
      (fun pt => decide ((c8data.length : ℤ) ≤ pt.index))) = true := by
  constructor
  · decide
  · decide

/-! ## ECGIntervalCalculator (part of part_008) -/

inductive Gender
  | male
  | female
deriving DecidableEq

/-- The `status` record of `ECGIntervals` (string literals of the source). -/
structure IntervalStatus where
  rr : String
  pr : String
  qrs : String
  qt : String
  qtc : String
  bpm : String
deriving DecidableEq

/-- The `ECGIntervals` interface of the source. -/
structure ECGIntervals where
  rr : ℚ
  pr : ℚ
  qrs : ℚ
  qt : ℚ
  qtc : ℚ
  bpm : ℚ
  status : IntervalStatus
deriving DecidableEq

/-- Mutable fields of `ECGIntervalCalculator`. -/
structure IntervalCalcState where
  sampleRate : ℚ
  gender : Gender
  lastIntervals : Option ECGIntervals
deriving DecidableEq

/-- One iteration of the `for (const point of sortedPoints)` loop of
`groupIntoComplexes`; the accumulator is `(complexes, currentComplex,
lastRPosition)` with the source's `-1` sentinel. -/
def groupStep (minRRDistance : ℤ) (acc : List (List PQRSTPoint) × List PQRSTPoint × ℤ)
    (point : PQRSTPoint) : List (List PQRSTPoint) × List PQRSTPoint × ℤ :=
  if point.type = WaveType.R then
    if acc.2.2 ≠ -1 ∧ ((point.absolutePosition - acc.2.2).natAbs : ℤ) < minRRDistance then
      acc
    else if acc.2.2 ≠ -1 then (acc.1 ++ [acc.2.1], [point], point.absolutePosition)
    else (acc.1, acc.2.1 ++ [point], point.absolutePosition)
  else (acc.1, acc.2.1 ++ [point], acc.2.2)

/-- `ECGIntervalCalculator.groupIntoComplexes`. -/
def groupIntoComplexes (sampleRate : ℚ) (points : List PQRSTPoint) :
    List (List PQRSTPoint) :=
  if points.length = 0 then []
  else
    let sortedPoints := jsSort
      (fun a b : PQRSTPoint => decide (a.absolutePosition ≤ b.absolutePosition))
      points.length points
    let minRRDistance := qfloor (qmul sampleRate (mkRat 6 10))
    let r := sortedPoints.foldl (groupStep minRRDistance) ([], [], -1)
    if r.2.1.length ≠ 0 then r.1 ++ [r.2.1] else r.1

/-- `ECGIntervalCalculator.isCompleteComplex`. -/
def isCompleteComplex (complex : List PQRSTPoint) : Bool :=
  complex.any (fun p => decide (p.type = WaveType.P)) &&
  complex.any (fun p => decide (p.type = WaveType.Q)) &&
  complex.any (fun p => decide (p.type = WaveType.R)) &&
  complex.any (fun p => decide (p.type = WaveType.S)) &&
  complex.any (fun p => decide (p.type = WaveType.T))

/-- `ECGIntervalCalculator.findPointByType` (`find` with `|| null` becomes
`Option`). -/
def findPointByType (complex : List PQRSTPoint) (t : WaveType) : Option PQRSTPoint :=
  complex.find? (fun p => decide (p.type = t))

def getRRStatus (rr : ℚ) : String :=
  if rr = 0 then "unknown"
  else if qlt rr 600 then "short"
  else if qlt 1000 rr then "long"
  else "normal"

def getPRStatus (pr : ℚ) : String :=
  if pr = 0 then "unknown"
  else if qlt pr 120 then "short"
  else if qlt 200 pr then "long"
  else "normal"

def getQRSStatus (qrs : ℚ) : String :=
  if qrs = 0 then "unknown"
  else if qlt 120 qrs then "wide"
  else "normal"

def getQTStatus (gender : Gender) (qt : ℚ) : String :=
  if qt = 0 then "unknown"
  else if qlt (if gender = Gender.male then (440 : ℚ) else 460) qt then "prolonged"
  else "normal"

def getQTcStatus (gender : Gender) (qtc : ℚ) : String :=
  if qtc = 0 then "unknown"
  else if qlt (if gender = Gender.male then (450 : ℚ) else 470) qtc then "prolonged"
  else "normal"

def getBPMStatus (bpm : ℚ) : String :=
  if bpm = 0 then "unknown"
  else if qlt bpm 60 then "bradycardia"
  else if qlt 100 bpm then "tachycardia"
  else "normal"

/-- `ECGIntervalCalculator.calculateIntervals`, with `Math.sqrt` passed in as
`sqrtFn` and the mutable `lastIntervals` threaded through `IntervalCalcState`;
the returned pair is (return value, state after the call). The source's
`qPoint2` is the identical lookup as `qPoint` and is collapsed. -/
def calculateIntervals (sqrtFn : ℚ → ℚ) (st : IntervalCalcState)
    (pqrstPoints : List PQRSTPoint) : Option ECGIntervals × IntervalCalcState :=
  let complexes := groupIntoComplexes st.sampleRate pqrstPoints
  if complexes.length < 1 then (st.lastIntervals, st)
  else
    let latestComplex := complexes.getLast?.getD []
    if isCompleteComplex latestComplex = true then
      let rrInterval0 : ℚ :=
        if 2 ≤ complexes.length then
          match findPointByType latestComplex WaveType.R,
              findPointByType ((complexes.get? (complexes.length - 2)).getD [])
                WaveType.R with
          | some currentR, some previousR =>
            qmul (qdiv
              (qofInt ((currentR.absolutePosition - previousR.absolutePosition).natAbs : ℤ))
              st.sampleRate) 1000
          | _, _ => 0
        else 0
      let rrInterval1 : ℚ :=
        if rrInterval0 = 0 then
          match st.lastIntervals with
          | some li => if li.rr = 0 then rrInterval0 else li.rr
          | none => rrInterval0
        else rrInterval0
      let bpm : ℚ := if qlt 0 rrInterval1 then qdiv 60000 rrInterval1 else 0
      let pPoint := findPointByType latestComplex WaveType.P
      let qPoint := findPointByType latestComplex WaveType.Q
      let prInterval : ℚ :=
        match pPoint, qPoint with
        | some pp, some qp => qmul (qdiv (qofInt (qp.index - pp.index)) st.sampleRate) 1000
        | _, _ => 0
      let sPoint := findPointByType latestComplex WaveType.S
      let qrsDuration : ℚ :=
        match qPoint, sPoint with
        | some qp, some sp => qmul (qdiv (qofInt (sp.index - qp.index)) st.sampleRate) 1000
        | _, _ => 0
      let tPoint := findPointByType latestComplex WaveType.T
      let qtInterval : ℚ :=
        match qPoint, tPoint with
        | some qp, some tp => qmul (qdiv (qofInt (tp.index - qp.index)) st.sampleRate) 1000
        | _, _ => 0
      let rrInterval : ℚ :=
        if qlt rrInterval1 100 && qlt 0 bpm then qdiv 60000 bpm else rrInterval1
      let qtcInterval : ℚ :=
        if qlt 0 qtInterval && qle 100 rrInterval then
          qdiv qtInterval (sqrtFn (qdiv rrInterval 1000))
        else 0
      let result : ECGIntervals :=
        { rr := rrInterval, pr := prInterval, qrs := qrsDuration, qt := qtInterval,
          qtc := qtcInterval, bpm := bpm,
          status :=
            { rr := getRRStatus rrInterval, pr := getPRStatus prInterval,
              qrs := getQRSStatus qrsDuration, qt := getQTStatus st.gender qtInterval,
              qtc := getQTcStatus st.gender qtcInterval, bpm := getBPMStatus bpm } }
      (some result, { st with lastIntervals := some result })
    else (st.lastIntervals, st)

/-! ## Claim C3 -/

/-- C3: if grouping the fiducial points yields no complex, or the most recent
complex lacks one of the five wave types, `calculateIntervals` returns the
cached `lastIntervals` and leaves the calculator state unchanged. -/
theorem C3_hold_last_good (sqrtFn : ℚ → ℚ) (st : IntervalCalcState)
    (points : List PQRSTPoint)
    (h : groupIntoComplexes st.sampleRate points = [] ∨
      isCompleteComplex ((groupIntoComplexes st.sampleRate points).getLast?.getD [])
        = false) :
    calculateIntervals sqrtFn st points = (st.lastIntervals, st) := by
  unfold calculateIntervals
  dsimp only
  rcases h with h1 | h2
  · rw [h1]
    have hl : (([] : List (List PQRSTPoint)).length < 1) := by simp
    rw [if_pos hl]
  · by_cases hlen : (groupIntoComplexes st.sampleRate points).length < 1
    · rw [if_pos hlen]
    · rw [if_neg hlen, h2, if_neg Bool.false_ne_true]

/-- Cached intervals used by the C3 witness. -/
def c3cached : ECGIntervals :=
  { rr := 800, pr := 160, qrs := 80, qt := 400, qtc := 420, bpm := 75,
    status := { rr := "normal", pr := "normal", qrs := "normal", qt := "normal",
                qtc := "normal", bpm := "normal" } }

def c3st : IntervalCalcState :=
  { sampleRate := 360, gender := Gender.male, lastIntervals := some c3cached }

theorem C3_hold_last_good_witness :
    calculateIntervals (fun q => q) c3st [⟨30, some 1, WaveType.R, 30⟩] =
      (c3st.lastIntervals, c3st) :=
  C3_hold_last_good (fun q => q) c3st [⟨30, some 1, WaveType.R, 30⟩] (Or.inr (by decide))

/-! ## Claim C4 -/

/-- The Bazett branch of the source, rewritten through the kernel-reducible
operations' bridge lemmas. -/
theorem qtc_formula (f : ℚ → ℚ) (qt rr : ℚ) :
    (if qlt 0 qt && qle 100 rr then qdiv qt (f (qdiv rr 1000)) else 0) =
      if 0 < qt ∧ 100 ≤ rr then qt / f (rr / 1000) else 0 := by
  simp only [qdiv_eq]
  by_cases h1 : (0 : ℚ) < qt <;> by_cases h2 : (100 : ℚ) ≤ rr <;>
    simp [Bool.and_eq_true, qlt_iff, qle_iff, h1, h2]

/-- At RR = 1000 ms with a faithful square root and nonnegative QT, the Bazett
formula collapses to QTc = QT. -/
theorem bazett_rr1000 (f : ℚ → ℚ) (iv : ECGIntervals)
    (hform : iv.qtc = if 0 < iv.qt ∧ 100 ≤ iv.rr then iv.qt / f (iv.rr / 1000) else 0)
    (hf : f 1 = 1) (hrr : iv.rr = 1000) (hqt : 0 ≤ iv.qt) : iv.qtc = iv.qt := by
  rw [hform, hrr]
  have h1000 : (1000 : ℚ) / 1000 = 1 := by norm_num
  rw [h1000, hf]
  rcases eq_or_lt_of_le hqt with h | h
  · rw [if_neg]
    · exact h
    · rintro ⟨hq, -⟩
      rw [← h] at hq
      exact lt_irrefl 0 hq
  · rw [if_pos ⟨h, by norm_num⟩, div_one]

/-- C4: whenever `calculateIntervals` takes the full computation path (some
complex exists and the most recent one is complete) and returns intervals
`iv`, the corrected QT satisfies Bazett's rule exactly: `iv.qtc` equals
`iv.qt / sqrtFn (iv.rr / 1000)` when `iv.qt > 0` and `iv.rr ≥ 100`, and `0`
otherwise; in particular, for a faithful square root and `iv.rr = 1000` with
`iv.qt ≥ 0`, `iv.qtc = iv.qt`. -/
theorem C4_qtc_bazett (sqrtFn : ℚ → ℚ) (st : IntervalCalcState)
    (points : List PQRSTPoint) (iv : ECGIntervals)
    (h1 : groupIntoComplexes st.sampleRate points ≠ [])
    (h2 : isCompleteComplex ((groupIntoComplexes st.sampleRate points).getLast?.getD [])
      = true)
    (h3 : (calculateIntervals sqrtFn st points).1 = some iv) :
    (iv.qtc = if 0 < iv.qt ∧ 100 ≤ iv.rr then iv.qt / sqrtFn (iv.rr / 1000) else 0) ∧
    (sqrtFn 1 = 1 → iv.rr = 1000 → 0 ≤ iv.qt → iv.qtc = iv.qt) := by
  have hl : ¬((groupIntoComplexes st.sampleRate points).length < 1) := by
    have := List.length_pos.mpr h1
    omega
  unfold calculateIntervals at h3
  dsimp only at h3
  rw [if_neg hl, if_pos h2] at h3
  dsimp only at h3
  rw [Option.some_inj] at h3
  subst h3
  constructor
  · dsimp only
    exact qtc_formula sqrtFn _ _
  · intro hf hrr hqt
    exact bazett_rr1000 sqrtFn _ (by dsimp only; exact qtc_formula sqrtFn _ _) hf hrr hqt

/-- Fiducial points (two complete complexes, R peaks 360 samples apart at
360 Hz, so RR = 1000 ms) used by the C4 witness. -/
def c4pts : List PQRSTPoint :=
  [⟨10, some 0, WaveType.P, 10⟩, ⟨20, some 0, WaveType.Q, 20⟩,
   ⟨30, some 1, WaveType.R, 30⟩, ⟨40, some 0, WaveType.S, 40⟩,
   ⟨50, some 0, WaveType.T, 50⟩, ⟨390, some 1, WaveType.R, 390⟩,
   ⟨391, some 0, WaveType.P, 391⟩, ⟨392, some 0, WaveType.Q, 392⟩,
   ⟨400, some 0, WaveType.S, 400⟩, ⟨410, some 0, WaveType.T, 410⟩]

def c4st : IntervalCalcState :=
  { sampleRate := 360, gender := Gender.male, lastIntervals := none }

/-- The intervals `calculateIntervals` computes on `c4pts`. -/
def c4iv : ECGIntervals :=
  { rr := 1000, pr := mkRat 25 9, qrs := mkRat 200 9, qt := 50, qtc := 50, bpm := 60,
    status := { rr := "normal", pr := "short", qrs := "normal", qt := "normal",
                qtc := "normal", bpm := "normal" } }

/-! ## PanTompkinsDetector (part_006)

The detector state holds the threshold trackers and the peak/noise history;
the JS arrays `peakAmp`, `peakLoc`, `noiseAmp`, `noiseLoc` are stored
most-recent-first (reversed JS order), so a JS `push` is a cons, the JS "last
element" is the head, and `slice(-8)` is `take 8`; the `slice(-8).reduce`
averages are unchanged by the reversal because rational addition is exact and
commutative. -/

structure PTState where
  peakAmp : List ℚ
  peakLoc : List ℤ
  noiseAmp : List ℚ
  noiseLoc : List ℤ
  signalThreshold : ℚ
  noiseThreshold : ℚ
deriving DecidableEq

/-- The constructor/reset state of `PanTompkinsDetector`. -/
def ptInit : PTState :=
  { peakAmp := [], peakLoc := [], noiseAmp := [], noiseLoc := [],
    signalThreshold := mkRat 1 4, noiseThreshold := mkRat 1 10 }

/-- `bandpassFilter` for `usePrefiltered = false`, producing
`filtered[i-1], …, filtered[0]` most-recent-first (the recurrence reads
`filtered[i-1]` and `filtered[i-2]` as the head and second element). -/
def bandpassRev (data : List ℚ) : ℕ → List ℚ
  | 0 => []
  | i + 1 =>
    let prev := bandpassRev data i
    let f0 := qmul (mkRat 1816 10000) ((jget data (i : ℤ)).getD 0)
    let f1 :=
      if 1 ≤ i then
        qadd f0 (qsub (qmul 0 ((jget data ((i : ℤ) - 1)).getD 0))
          (qmul (mkRat (-15267) 10000) (prev.headD 0)))
      else f0
    let f2 :=
      if 2 ≤ i then
        qadd f1 (qsub (qmul (mkRat (-1816) 10000) ((jget data ((i : ℤ) - 2)).getD 0))
          (qmul (mkRat 5763 10000) (prev.tail.headD 0)))
      else f1
    f2 :: prev

def bandpassFilter (data : List ℚ) : List ℚ := (bandpassRev data data.length).reverse

/-- `PanTompkinsDetector.differentiate`. -/
def differentiate (sampleRate : ℚ) (data : List ℚ) : List ℚ :=
  let fsScale := qdiv sampleRate 360
  (List.range data.length).map (fun i =>
    if 2 ≤ i ∧ i + 2 < data.length then
      qmul (qsub (qsub (qadd (qmul 2 ((jget data ((i : ℤ) + 2)).getD 0))
          ((jget data ((i : ℤ) + 1)).getD 0)) ((jget data ((i : ℤ) - 1)).getD 0))
        (qmul 2 ((jget data ((i : ℤ) - 2)).getD 0)))
        (qdiv fsScale 8)
    else 0)

/-- `PanTompkinsDetector.square`. -/
def square (data : List ℚ) : List ℚ := data.map (fun x => qmul x x)

/-- `PanTompkinsDetector.movingWindowIntegrate` (running sum over the window,
each output divided by the window size). -/
def movingWindowIntegrate (data : List ℚ) (windowSize : ℤ) : List ℚ :=
  ((List.range data.length).foldl (fun acc i =>
    let s1 := qadd acc.1 ((jget data (i : ℤ)).getD 0)
    let s2 :=
      if windowSize ≤ (i : ℤ) then qsub s1 ((jget data ((i : ℤ) - windowSize)).getD 0)
      else s1
    (s2, qdiv s2 (qofInt windowSize) :: acc.2)) ((0 : ℚ), ([] : List ℚ))).2.reverse

/-- One iteration of the peak-scan loop of `findPeaks` (`i` from `1` to
`dataLength - 2`); the accumulator is `(rPeaks most-recent-first, state)`. -/
def findPeaksStep (minDistance : ℤ) (integ : List ℚ) (acc : List ℤ × PTState) (i : ℤ) :
    List ℤ × PTState :=
  let st := acc.2
  if jgt (jget integ i) (jget integ (i - 1)) && jge (jget integ i) (jget integ (i + 1)) then
    if jgt (jget integ i) (some st.signalThreshold) then
      let lastPeakIdx := st.peakLoc.headD (-(minDistance * 10))
      if minDistance ≤ i - lastPeakIdx then
        let amp := (jget integ i).getD 0
        let peakAmp2 := amp :: st.peakAmp
        let peakLoc2 := i :: st.peakLoc
        let peakAvg := qdiv ((peakAmp2.take 8).foldl qadd 0) (qofNat (min 8 peakAmp2.length))
        (i :: acc.1,
          { st with
              peakAmp := peakAmp2
              peakLoc := peakLoc2
              signalThreshold :=
                qadd (qmul (mkRat 875 1000) st.signalThreshold)
                  (qmul (mkRat 125 1000)
                    (qmax (qadd st.noiseThreshold
                        (qmul (mkRat 25 100) (qsub peakAvg st.noiseThreshold)))
                      (mkRat 1 1000000))) })
      else
        if st.peakAmp.length ≠ 0 ∧ jgt (jget integ i) st.peakAmp.head? = true then
          (acc.1,
            { st with
                peakAmp := (jget integ i).getD 0 :: st.peakAmp.tail
                peakLoc := i :: st.peakLoc.tail })
        else acc
    else
      if jgt (jget integ i) (some st.noiseThreshold) then
        let amp := (jget integ i).getD 0
        let noiseAmp2 := amp :: st.noiseAmp
        let noiseLoc2 := i :: st.noiseLoc
        let noiseAvg := qdiv ((noiseAmp2.take 8).foldl qadd 0) (qofNat (min 8 noiseAmp2.length))
        (acc.1,
          { st with
              noiseAmp := noiseAmp2
              noiseLoc := noiseLoc2
              noiseThreshold :=
                qadd (qmul (mkRat 875 1000) st.noiseThreshold)
                  (qmul (mkRat 125 1000) (qmax noiseAvg (mkRat 1 1000000))) })
      else acc
  else acc

/-- The per-peak refinement of `findPeaks`: search `±searchWindow` around the
peak for the largest `|filtered|` sample, keep it if above `ampThresh`. -/
def refineOne (filt : List ℚ) (ampThresh : ℚ) (searchWindow : ℤ) (p : ℤ) : Option ℤ :=
  let s := max 0 (p - searchWindow)
  let e := min ((filt.length : ℤ) - 1) (p + searchWindow)
  let m := (intRange s (e + 1)).foldl
    (fun acc i =>
      if qlt acc.2 (qabs ((jget filt i).getD 0)) then (i, qabs ((jget filt i).getD 0))
      else acc)
    (s, qabs ((jget filt s).getD 0))
  if qle ampThresh m.2 then some m.1 else none

/-- `Array.from(new Set(...))`: first-occurrence-order dedup. -/
def dedupGo (seen : List ℤ) : List ℤ → List ℤ
  | [] => []
  | x :: xs => if seen.contains x then dedupGo seen xs else x :: dedupGo (x :: seen) xs

def dedup (l : List ℤ) : List ℤ := dedupGo [] l

/-- The T-wave rejection loop past its first element: drop a peak when it is
within `rrMin` of the last kept peak and has much lower `|filtered|`
amplitude. -/
def tWaveGo (filt : List ℚ) (rrMin : ℤ) : ℤ → List ℤ → List ℤ
  | _, [] => []
  | prev, c :: cs =>
    if c - prev < rrMin ∧
        qlt (qabs ((jget filt c).getD 0))
          (qmul (mkRat 1 2) (qabs ((jget filt prev).getD 0))) = true then
      tWaveGo filt rrMin prev cs
    else c :: tWaveGo filt rrMin c cs

def tWaveFilter (filt : List ℚ) (rrMin : ℤ) : List ℤ → List ℤ
  | [] => []
  | c :: cs => c :: tWaveGo filt rrMin c cs

/-- `PanTompkinsDetector.findPeaks`; returns the peak list and the updated
detector state. -/
def findPeaks (sampleRate : ℚ) (st0 : PTState) (integrated filtered : List ℚ) :
    List ℤ × PTState :=
  let dataLength := integrated.length
  let minDistance := qround (qmul sampleRate (mkRat 2 10))
  if dataLength < 5 then ([], st0)
  else
    let st1 :=
      if st0.peakAmp.length = 0 then
        let sortedData := jsSort (fun a b : ℚ => qle b a) dataLength integrated
        let idx := max 0 (qfloor (qmul (qofNat dataLength) (mkRat 5 100)))
        let topValue := (sortedData.get? idx.toNat <|> sortedData.get? 0).getD 0
        { st0 with
            signalThreshold := qmul topValue (mkRat 6 10)
            noiseThreshold := qmul topValue (mkRat 2 10) }
      else st0
    let scan := (intRange 1 ((dataLength : ℤ) - 1)).foldl
      (findPeaksStep minDistance integrated) ([], st1)
    let rPeaks := scan.1.reverse
    let st2 := scan.2
    let recentPeakAvg :=
      if st2.peakAmp.length ≠ 0 then
        qdiv ((st2.peakAmp.take 8).foldl qadd 0) (qofNat (min 8 st2.peakAmp.length))
      else 0
    let ampThresh :=
      if recentPeakAvg = 0 then mkRat 1 1000000
      else qmax (qmul (mkRat 25 100) recentPeakAvg) (mkRat 1 1000000)
    let searchWindow := qround (qmul sampleRate (mkRat 3 100))
    let refinedPeaks := rPeaks.filterMap (refineOne filtered ampThresh searchWindow)
    let finalPeaks0 := dedup refinedPeaks
    let finalPeaks := jsSort (fun a b : ℤ => decide (a ≤ b)) finalPeaks0.length finalPeaks0
    let rrMin := qround (qmul sampleRate (mkRat 36 100))
    (tWaveFilter filtered rrMin finalPeaks, st2)

/-- `PanTompkinsDetector.detectQRS`, with `Math.sqrt` passed in as `sqrtFn`
(`|| 1` becomes the zero test, the only falsy exact rational); the
debug-only `prev*` assignments are omitted. -/
def detectQRS (sqrtFn : ℚ → ℚ) (sampleRate : ℚ) (usePrefiltered : Bool) (st0 : PTState)
    (data : List ℚ) : List ℤ × PTState :=
  let filtered := if usePrefiltered then data else bandpassFilter data
  let mean := qdiv (filtered.foldl qadd 0) (qofNat filtered.length)
  let variance := qdiv
    (filtered.foldl (fun s v => qadd s (qmul (qsub v mean) (qsub v mean))) 0)
    (qofNat filtered.length)
  let std0 := sqrtFn variance
  let std := if std0 = 0 then 1 else std0
  let norm := filtered.map (fun v => qdiv (qsub v mean) std)
  let differentiated := differentiate sampleRate norm
  let squared := square differentiated
  let windowSize := qround (qmul sampleRate (mkRat 15 100))
  let integrated := movingWindowIntegrate squared windowSize
  findPeaks sampleRate st0 integrated norm

/-! ## Claim C1

The scan invariant: the accepted peaks (most-recent-first) are spaced at
least `minDistance` apart, each lies in `[1, c]` where `c` bounds the indices
processed so far, and the newest accepted peak is at most the tracked
`peakLoc` head (which in-refractory replacement can only move forward). -/

def ScanInv (md c : ℤ) (acc : List ℤ × PTState) : Prop :=
  (∀ x ∈ acc.1, 1 ≤ x ∧ x ≤ c) ∧
  List.Chain' (fun a b => b + md ≤ a) acc.1 ∧
  (∀ h, acc.1.head? = some h → ∃ L, acc.2.peakLoc.head? = some L ∧ h ≤ L)

theorem scanInv_mono (md c c' : ℤ) (acc : List ℤ × PTState) (h : ScanInv md c acc)
    (hcc : c ≤ c') : ScanInv md c' acc := by
  obtain ⟨hb, hch, hhd⟩ := h
  exact ⟨fun x hx => ⟨(hb x hx).1, le_trans (hb x hx).2 hcc⟩, hch, hhd⟩

theorem headD_of_head? {α : Type} {l : List α} {a : α} (d : α) (h : l.head? = some a) :
    l.headD d = a := by
  cases l with
  | nil => cases h
  | cons x xs =>
    simp only [List.head?_cons, Option.some_inj] at h
    simp [List.headD, h]

theorem findPeaksStep_inv (md : ℤ) (integ : List ℚ) (acc : List ℤ × PTState) (c i : ℤ)
    (hinv : ScanInv md c acc) (h1 : 1 ≤ i) (hci : c < i) :
    ScanInv md i (findPeaksStep md integ acc i) := by
  have hmono : ScanInv md i acc := scanInv_mono md c i acc hinv (le_of_lt hci)
  obtain ⟨hb, hch, hhd⟩ := hinv
  unfold findPeaksStep
  dsimp only
  split
  · split
    · split
      · -- accept
        next hacc =>
        refine ⟨?_, ?_, ?_⟩
        · intro x hx
          rcases List.mem_cons.mp hx with rfl | hx'
          · exact ⟨h1, le_refl x⟩
          · exact ⟨(hb x hx').1, le_trans (hb x hx').2 (le_of_lt hci)⟩
        · rw [List.chain'_cons']
          refine ⟨?_, hch⟩
          intro h hh
          obtain ⟨L, hL, hhL⟩ := hhd h hh
          rw [headD_of_head? (-(md * 10)) hL] at hacc
          omega
        · intro h hh
          rw [List.head?_cons, Option.some_inj] at hh
          exact ⟨i, rfl, le_of_eq hh.symm⟩
      · split
        · -- in-refractory replacement: peaks unchanged, peakLoc head becomes i
          refine ⟨fun x hx => ⟨(hb x hx).1, le_trans (hb x hx).2 (le_of_lt hci)⟩, hch, ?_⟩
          intro h hh
          refine ⟨i, rfl, ?_⟩
          have hmem : h ∈ acc.1 := List.mem_of_mem_head? hh
          exact le_trans (hb h hmem).2 (le_of_lt hci)
        · exact hmono
    · split
      · -- noise update: peaks and peakLoc unchanged
        refine ⟨fun x hx => ⟨(hb x hx).1, le_trans (hb x hx).2 (le_of_lt hci)⟩, hch, ?_⟩
        intro h hh
        exact hhd h hh
      · exact hmono
  · exact hmono

theorem scanInv_foldl (md : ℤ) (integ : List ℚ) :
    ∀ (l : List ℤ) (acc : List ℤ × PTState) (c : ℤ),
      ScanInv md c acc → (∀ x ∈ l, 1 ≤ x ∧ c < x) → l.Pairwise (· < ·) →
      ∃ c', ScanInv md c' (l.foldl (findPeaksStep md integ) acc)
  | [], acc, c, hinv, _, _ => ⟨c, hinv⟩
  | x :: xs, acc, c, hinv, hel, hpw => by
    rw [List.foldl_cons]
    have hx := hel x (List.mem_cons_self x xs)
    have hstep := findPeaksStep_inv md integ acc c x hinv hx.1 hx.2
    have hpw' := List.pairwise_cons.mp hpw
    exact scanInv_foldl md integ xs (findPeaksStep md integ acc x) x hstep
      (fun y hy => ⟨(hel y (List.mem_cons_of_mem x hy)).1, hpw'.1 y hy⟩) hpw'.2

theorem chain_gap_all (md : ℤ) (hmd : 0 ≤ md) :
    ∀ (x : ℤ) (xs : List ℤ), List.Chain' (fun a b => a + md ≤ b) (x :: xs) →
      ∀ y ∈ xs, x + md ≤ y
  | _, [], _, y, hy => absurd hy (List.not_mem_nil y)
  | x, z :: zs, h, y, hy => by
    rw [List.chain'_cons] at h
    rcases List.mem_cons.mp hy with rfl | hy'
    · exact h.1
    · have := chain_gap_all md hmd z zs h.2 y hy'
      omega

theorem chain_gap_pairwise (md : ℤ) (hmd : 0 ≤ md) :
    ∀ l : List ℤ, List.Chain' (fun a b => a + md ≤ b) l →
      List.Pairwise (fun a b => a + md ≤ b) l
  | [], _ => List.Pairwise.nil
  | x :: xs, h => by
    rw [List.pairwise_cons]
    exact ⟨chain_gap_all md hmd x xs h,
      chain_gap_pairwise md hmd xs (List.chain'_cons'.mp h).2⟩

theorem filterMap_gap_pairwise (g : ℤ → Option ℤ) (sw md : ℤ)
    (hg : ∀ p r, 1 ≤ p → g p = some r → p - sw ≤ r ∧ r ≤ p + sw) :
    ∀ l : List ℤ, (∀ x ∈ l, 1 ≤ x) → List.Pairwise (fun a b => a + md ≤ b) l →
      List.Pairwise (fun a b => a + (md - 2 * sw) ≤ b) (l.filterMap g)
  | [], _, _ => by simp
  | x :: xs, hpos, hpw => by
    rw [List.pairwise_cons] at hpw
    have ih := filterMap_gap_pairwise g sw md hg xs
      (fun y hy => hpos y (List.mem_cons_of_mem x hy)) hpw.2
    rw [List.filterMap_cons]
    cases hgx : g x with
    | none => exact ih
    | some r =>
      rw [List.pairwise_cons]
      refine ⟨?_, ih⟩
      intro r' hr'
      obtain ⟨q, hq, hgq⟩ := List.mem_filterMap.mp hr'
      have hxr := hg x r (hpos x (List.mem_cons_self x xs)) hgx
      have hqr := hg q r' (hpos q (List.mem_cons_of_mem x hq)) hgq
      have := hpw.1 q hq
      omega

theorem refineFold_fst_mem (f : ℤ → ℚ) :
    ∀ (idxs : List ℤ) (acc : ℤ × ℚ),
      (idxs.foldl (fun acc i => if qlt acc.2 (f i) then (i, f i) else acc) acc).1 = acc.1 ∨
      (idxs.foldl (fun acc i => if qlt acc.2 (f i) then (i, f i) else acc) acc).1 ∈ idxs
  | [], _ => Or.inl rfl
  | i :: is, acc => by
    rw [List.foldl_cons]
    rcases refineFold_fst_mem f is (if qlt acc.2 (f i) then (i, f i) else acc) with h | h
    · rw [h]
      by_cases hc : qlt acc.2 (f i) = true
      · rw [if_pos hc]
        exact Or.inr (List.mem_cons_self _ _)
      · rw [if_neg hc]
        exact Or.inl rfl
    · exact Or.inr (List.mem_cons_of_mem _ h)

theorem refineOne_bounds (filt : List ℚ) (ampThresh : ℚ) (sw : ℤ) (hsw : 0 ≤ sw)
    (p r : ℤ) (hp : 1 ≤ p) (h : refineOne filt ampThresh sw p = some r) :
    p - sw ≤ r ∧ r ≤ p + sw := by
  unfold refineOne at h
  dsimp only at h
  split at h
  · rw [Option.some_inj] at h
    subst h
    rcases refineFold_fst_mem (fun i => qabs ((jget filt i).getD 0))
        (intRange (max 0 (p - sw)) (min ((filt.length : ℤ) - 1) (p + sw) + 1))
        (max 0 (p - sw), qabs ((jget filt (max 0 (p - sw))).getD 0)) with hm | hm
    · rw [hm]
      omega
    · have := mem_intRange.mp hm
      omega
  · exact Option.noConfusion h

theorem dedupGo_sublist : ∀ (seen l : List ℤ), List.Sublist (dedupGo seen l) l
  | _, [] => List.Sublist.refl []
  | seen, x :: xs => by
    rw [dedupGo]
    split
    · exact (dedupGo_sublist seen xs).cons x
    · exact (dedupGo_sublist (x :: seen) xs).cons₂ x

theorem dedup_sublist (l : List ℤ) : List.Sublist (dedup l) l := dedupGo_sublist [] l

theorem tWaveGo_sublist (filt : List ℚ) (rrMin : ℤ) :
    ∀ (prev : ℤ) (l : List ℤ), List.Sublist (tWaveGo filt rrMin prev l) l
  | _, [] => List.Sublist.refl []
  | prev, c :: cs => by
    rw [tWaveGo]
    split
    · exact (tWaveGo_sublist filt rrMin prev cs).cons c
    · exact (tWaveGo_sublist filt rrMin c cs).cons₂ c

theorem tWaveFilter_sublist (filt : List ℚ) (rrMin : ℤ) :
    ∀ l : List ℤ, List.Sublist (tWaveFilter filt rrMin l) l
  | [] => List.Sublist.refl []
  | c :: cs => (tWaveGo_sublist filt rrMin c cs).cons₂ c

/-- The post-scan pipeline (refine, dedup, sort, T-wave filter) turns a peak
list spaced `md` apart into one spaced `md - 2·sw` apart. -/
theorem refine_pipeline (filt : List ℚ) (ampThresh : ℚ) (sw rrMin md : ℤ)
    (hsw : 0 ≤ sw) (hmd : md - 2 * sw = 50) (rPeaks : List ℤ)
    (hpos : ∀ p ∈ rPeaks, 1 ≤ p)
    (hchain : List.Chain' (fun a b => a + md ≤ b) rPeaks) :
    List.Chain' (fun p q => p + 50 ≤ q)
      (tWaveFilter filt rrMin
        (jsSort (fun a b : ℤ => decide (a ≤ b))
          (dedup (rPeaks.filterMap (refineOne filt ampThresh sw))).length
          (dedup (rPeaks.filterMap (refineOne filt ampThresh sw))))) := by
  have hmd0 : (0 : ℤ) ≤ md := by omega
  have hpw := chain_gap_pairwise md hmd0 rPeaks hchain
  have h50 := filterMap_gap_pairwise (refineOne filt ampThresh sw) sw md
    (fun p r hp h => refineOne_bounds filt ampThresh sw hsw p r hp h) rPeaks hpos hpw
  simp only [hmd] at h50
  have hdedup := h50.sublist (dedup_sublist _)
  have hsorted := jsSort_eq_self (fun a b : ℤ => decide (a ≤ b))
    (dedup (rPeaks.filterMap (refineOne filt ampThresh sw))).length
    (dedup (rPeaks.filterMap (refineOne filt ampThresh sw)))
    (hdedup.imp (fun hab => decide_eq_true (by omega)))
  rw [hsorted]
  exact (hdedup.sublist (tWaveFilter_sublist filt rrMin _)).chain'

/-- Scan plus pipeline at 360 Hz constants (`minDistance = 72`,
`searchWindow = 11`): the final peak list is spaced at least 50 apart. -/
theorem scan_then_pipeline (integ filt : List ℚ) (st1 : PTState) (n : ℤ)
    (ampThresh : ℚ) (rrMin : ℤ) :
    List.Chain' (fun p q => p + 50 ≤ q)
      (tWaveFilter filt rrMin
        (jsSort (fun a b : ℤ => decide (a ≤ b))
          (dedup ((((intRange 1 n).foldl (findPeaksStep 72 integ) ([], st1)).1.reverse).filterMap
            (refineOne filt ampThresh 11))).length
          (dedup ((((intRange 1 n).foldl (findPeaksStep 72 integ) ([], st1)).1.reverse).filterMap
            (refineOne filt ampThresh 11))))) := by
  have hinv0 : ScanInv 72 0 ([], st1) := by
    refine ⟨?_, List.chain'_nil, ?_⟩
    · intro x hx
      exact absurd hx (List.not_mem_nil x)
    · intro h hh
      exact Option.noConfusion hh
  obtain ⟨c', hb, hch, -⟩ := scanInv_foldl 72 integ (intRange 1 n) ([], st1) 0 hinv0
    (fun x hx => ⟨(mem_intRange.mp hx).1, by have := (mem_intRange.mp hx).1; omega⟩)
    (intRange_pairwise 1 n)
  have hchain : List.Chain'
      (fun a b => a + 72 ≤ b)
      (((intRange 1 n).foldl (findPeaksStep 72 integ) ([], st1)).1.reverse) := by
    rw [List.chain'_reverse]
    exact hch
  have hpos : ∀ p ∈ ((intRange 1 n).foldl (findPeaksStep 72 integ) ([], st1)).1.reverse,
      1 ≤ p :=
    fun p hp => (hb p (List.mem_reverse.mp hp)).1
  exact refine_pipeline filt ampThresh 11 rrMin 72 (by norm_num) (by norm_num) _ hpos hchain

/-- `findPeaks` at 360 Hz always returns peaks spaced at least 50 apart. -/
theorem findPeaks_chain (st0 : PTState) (integ filt : List ℚ) :
    ((findPeaks 360 st0 integ filt).1).Chain' (fun p q => p + 50 ≤ q) := by
  unfold findPeaks
  dsimp only
  split
  · exact List.chain'_nil
  · have h72 : qround (qmul (360 : ℚ) (mkRat 2 10)) = 72 := by decide
    have h11 : qround (qmul (360 : ℚ) (mkRat 3 100)) = 11 := by decide
    dsimp only
    rw [h72, h11]
    exact scan_then_pipeline _ _ _ _ _ _

/-- C1 (amended): at 360 Hz the `minDistance = 72`-sample refractory applies
to the raw integration-signal peaks, but each accepted peak is then refined
within `±searchWindow = ±11` samples in the filtered signal, so adjacent
returned R-peaks are only guaranteed to satisfy `p2 - p1 ≥ 72 - 2·11 = 50`
(the claimed 72-sample spacing of the returned peaks fails, see the
counterexample); the weakened spacing holds for every input block, detector
state, square-root function and both filter modes. -/
theorem C1_refractory_spacing (sqrtFn : ℚ → ℚ) (usePrefiltered : Bool) (st : PTState)
    (data : List ℚ) :
    ((detectQRS sqrtFn 360 usePrefiltered st data).1).Chain' (fun p q => p + 50 ≤ q) := by
  unfold detectQRS
  dsimp only
  exact findPeaks_chain st _ _

/-- The square-root oracle for the C1 counterexample data: exact on the one
variance value the run computes (`4356/25`, whose square root is `66/5`),
as certified by the final conjuncts of `C1_counterexample`. -/
def c1sqrt : ℚ → ℚ := fun q => if q = mkRat 4356 25 then mkRat 66 5 else 0

/-- 160-sample input block for the C1 counterexample: two QRS-like spikes
whose raw integration peaks are 72 samples apart, but whose refined peaks are
only 68 apart. -/
def c1data : List ℚ :=
  List.replicate 20 0 ++ [64, 96] ++ List.replicate 67 0 ++ [96, 64, 40, 20, 8] ++
    List.replicate 56 0 ++ [mkRat (-7) 1, mkRat (-5) 1] ++ List.replicate 8 0

def c1norm : List ℚ :=
  [ mkRat (-47) 264, mkRat (-47) 264, mkRat (-47) 264, mkRat (-47) 264, mkRat (-47) 264,
   mkRat (-47) 264, mkRat (-47) 264, mkRat (-47) 264, mkRat (-47) 264, mkRat (-47) 264,
   mkRat (-47) 264, mkRat (-47) 264, mkRat (-47) 264, mkRat (-47) 264, mkRat (-47) 264,
   mkRat (-47) 264, mkRat (-47) 264, mkRat (-47) 264, mkRat (-47) 264, mkRat (-47) 264,
   mkRat 411 88, mkRat 1873 264, mkRat (-47) 264, mkRat (-47) 264, mkRat (-47) 264,
   mkRat (-47) 264, mkRat (-47) 264, mkRat (-47) 264, mkRat (-47) 264, mkRat (-47) 264,
   mkRat (-47) 264, mkRat (-47) 264, mkRat (-47) 264, mkRat (-47) 264, mkRat (-47) 264,
   mkRat (-47) 264, mkRat (-47) 264, mkRat (-47) 264, mkRat (-47) 264, mkRat (-47) 264,
   mkRat (-47) 264, mkRat (-47) 264, mkRat (-47) 264, mkRat (-47) 264, mkRat (-47) 264,
   mkRat (-47) 264, mkRat (-47) 264, mkRat (-47) 264, mkRat (-47) 264, mkRat (-47) 264,
   mkRat (-47) 264, mkRat (-47) 264, mkRat (-47) 264, mkRat (-47) 264, mkRat (-47) 264,
   mkRat (-47) 264, mkRat (-47) 264, mkRat (-47) 264, mkRat (-47) 264, mkRat (-47) 264,
   mkRat (-47) 264, mkRat (-47) 264, mkRat (-47) 264, mkRat (-47) 264, mkRat (-47) 264,
   mkRat (-47) 264, mkRat (-47) 264, mkRat (-47) 264, mkRat (-47) 264, mkRat (-47) 264,
   mkRat (-47) 264, mkRat (-47) 264, mkRat (-47) 264, mkRat (-47) 264, mkRat (-47) 264,
   mkRat (-47) 264, mkRat (-47) 264, mkRat (-47) 264, mkRat (-47) 264, mkRat (-47) 264,
   mkRat (-47) 264, mkRat (-47) 264, mkRat (-47) 264, mkRat (-47) 264, mkRat (-47) 264,
   mkRat (-47) 264, mkRat (-47) 264, mkRat (-47) 264, mkRat (-47) 264, mkRat 1873 264,
   mkRat 411 88, mkRat 251 88, mkRat 353 264, mkRat 113 264, mkRat (-47) 264, mkRat (-47) 264,
   mkRat (-47) 264, mkRat (-47) 264, mkRat (-47) 264, mkRat (-47) 264, mkRat (-47) 264,
   mkRat (-47) 264, mkRat (-47) 264, mkRat (-47) 264, mkRat (-47) 264, mkRat (-47) 264,
   mkRat (-47) 264, mkRat (-47) 264, mkRat (-47) 264, mkRat (-47) 264, mkRat (-47) 264,
   mkRat (-47) 264, mkRat (-47) 264, mkRat (-47) 264, mkRat (-47) 264, mkRat (-47) 264,
   mkRat (-47) 264, mkRat (-47) 264, mkRat (-47) 264, mkRat (-47) 264, mkRat (-47) 264,
   mkRat (-47) 264, mkRat (-47) 264, mkRat (-47) 264, mkRat (-47) 264, mkRat (-47) 264,
   mkRat (-47) 264, mkRat (-47) 264, mkRat (-47) 264, mkRat (-47) 264, mkRat (-47) 264,
   mkRat (-47) 264, mkRat (-47) 264, mkRat (-47) 264, mkRat (-47) 264, mkRat (-47) 264,
   mkRat (-47) 264, mkRat (-47) 264, mkRat (-47) 264, mkRat (-47) 264, mkRat (-47) 264,
   mkRat (-47) 264, mkRat (-47) 264, mkRat (-47) 264, mkRat (-47) 264, mkRat (-47) 264,
   mkRat (-47) 264, mkRat (-47) 264, mkRat (-47) 264, mkRat (-47) 264, mkRat (-17) 24,
   mkRat (-49) 88, mkRat (-47) 264, mkRat (-47) 264, mkRat (-47) 264, mkRat (-47) 264,
   mkRat (-47) 264, mkRat (-47) 264, mkRat (-47) 264, mkRat (-47) 264]

def c1diff : List ℚ :=
  [ 0, 0, 0, 0, 0, 0, 0, 0, 0, 0, 0, 0, 0, 0, 0, 0, 0, 0, mkRat 40 33, mkRat 80 33, mkRat 10 11,
   mkRat (-20) 33, mkRat (-70) 33, mkRat (-20) 11, 0, 0, 0, 0, 0, 0, 0, 0, 0, 0, 0, 0, 0, 0, 0, 0,
   0, 0, 0, 0, 0, 0, 0, 0, 0, 0, 0, 0, 0, 0, 0, 0, 0, 0, 0, 0, 0, 0, 0, 0, 0, 0, 0, 0, 0, 0, 0, 0,
   0, 0, 0, 0, 0, 0, 0, 0, 0, 0, 0, 0, 0, 0, 0, mkRat 20 11, mkRat 70 33, mkRat 15 11,
   mkRat (-5) 33, mkRat (-25) 12, mkRat (-50) 33, mkRat (-125) 132, mkRat (-5) 11, mkRat (-5) 33,
   0, 0, 0, 0, 0, 0, 0, 0, 0, 0, 0, 0, 0, 0, 0, 0, 0, 0, 0, 0, 0, 0, 0, 0, 0, 0, 0, 0, 0, 0, 0, 0,
   0, 0, 0, 0, 0, 0, 0, 0, 0, 0, 0, 0, 0, 0, 0, 0, 0, 0, 0, 0, mkRat (-35) 264, mkRat (-85) 528,
   mkRat (-25) 528, mkRat 35 528, mkRat 95 528, mkRat 25 264, 0, 0, 0, 0, 0, 0]

def c1sq : List ℚ :=
  [ 0, 0, 0, 0, 0, 0, 0, 0, 0, 0, 0, 0, 0, 0, 0, 0, 0, 0, mkRat 1600 1089, mkRat 6400 1089,
   mkRat 100 121, mkRat 400 1089, mkRat 4900 1089, mkRat 400 121, 0, 0, 0, 0, 0, 0, 0, 0, 0, 0, 0,
   0, 0, 0, 0, 0, 0, 0, 0, 0, 0, 0, 0, 0, 0, 0, 0, 0, 0, 0, 0, 0, 0, 0, 0, 0, 0, 0, 0, 0, 0, 0, 0,
   0, 0, 0, 0, 0, 0, 0, 0, 0, 0, 0, 0, 0, 0, 0, 0, 0, 0, 0, 0, mkRat 400 121, mkRat 4900 1089,
   mkRat 225 121, mkRat 25 1089, mkRat 625 144, mkRat 2500 1089, mkRat 15625 17424, mkRat 25 121,
   mkRat 25 1089, 0, 0, 0, 0, 0, 0, 0, 0, 0, 0, 0, 0, 0, 0, 0, 0, 0, 0, 0, 0, 0, 0, 0, 0, 0, 0, 0,
   0, 0, 0, 0, 0, 0, 0, 0, 0, 0, 0, 0, 0, 0, 0, 0, 0, 0, 0, 0, 0, 0, 0, 0, 0, mkRat 1225 69696,
   mkRat 7225 278784, mkRat 625 278784, mkRat 1225 278784, mkRat 9025 278784, mkRat 625 69696, 0,
   0, 0, 0, 0, 0]

def c1integ : List ℚ :=
  [ 0, 0, 0, 0, 0, 0, 0, 0, 0, 0, 0, 0, 0, 0, 0, 0, 0, 0, mkRat 800 29403, mkRat 4000 29403,
   mkRat 4450 29403, mkRat 1550 9801, mkRat 7100 29403, mkRat 8900 29403, mkRat 8900 29403,
   mkRat 8900 29403, mkRat 8900 29403, mkRat 8900 29403, mkRat 8900 29403, mkRat 8900 29403,
   mkRat 8900 29403, mkRat 8900 29403, mkRat 8900 29403, mkRat 8900 29403, mkRat 8900 29403,
   mkRat 8900 29403, mkRat 8900 29403, mkRat 8900 29403, mkRat 8900 29403, mkRat 8900 29403,
   mkRat 8900 29403, mkRat 8900 29403, mkRat 8900 29403, mkRat 8900 29403, mkRat 8900 29403,
   mkRat 8900 29403, mkRat 8900 29403, mkRat 8900 29403, mkRat 8900 29403, mkRat 8900 29403,
   mkRat 8900 29403, mkRat 8900 29403, mkRat 8900 29403, mkRat 8900 29403, mkRat 8900 29403,
   mkRat 8900 29403, mkRat 8900 29403, mkRat 8900 29403, mkRat 8900 29403, mkRat 8900 29403,
   mkRat 8900 29403, mkRat 8900 29403, mkRat 8900 29403, mkRat 8900 29403, mkRat 8900 29403,
   mkRat 8900 29403, mkRat 8900 29403, mkRat 8900 29403, mkRat 8900 29403, mkRat 8900 29403,
   mkRat 8900 29403, mkRat 8900 29403, mkRat 100 363, mkRat 4900 29403, mkRat 4450 29403,
   mkRat 4250 29403, mkRat 200 3267, 0, 0, 0, 0, 0, 0, 0, 0, 0, 0, mkRat 200 3267,
   mkRat 4250 29403, mkRat 10525 58806, mkRat 5275 29403, mkRat 81475 313632, mkRat 284425 940896,
   mkRat 150025 470448, mkRat 151825 470448, mkRat 50675 156816, mkRat 50675 156816,
   mkRat 50675 156816, mkRat 50675 156816, mkRat 50675 156816, mkRat 50675 156816,
   mkRat 50675 156816, mkRat 50675 156816, mkRat 50675 156816, mkRat 50675 156816,
   mkRat 50675 156816, mkRat 50675 156816, mkRat 50675 156816, mkRat 50675 156816,
   mkRat 50675 156816, mkRat 50675 156816, mkRat 50675 156816, mkRat 50675 156816,
   mkRat 50675 156816, mkRat 50675 156816, mkRat 50675 156816, mkRat 50675 156816,
   mkRat 50675 156816, mkRat 50675 156816, mkRat 50675 156816, mkRat 50675 156816,
   mkRat 50675 156816, mkRat 50675 156816, mkRat 50675 156816, mkRat 50675 156816,
   mkRat 50675 156816, mkRat 50675 156816, mkRat 50675 156816, mkRat 50675 156816,
   mkRat 50675 156816, mkRat 50675 156816, mkRat 50675 156816, mkRat 50675 156816,
   mkRat 50675 156816, mkRat 50675 156816, mkRat 50675 156816, mkRat 50675 156816,
   mkRat 50675 156816, mkRat 50675 156816, mkRat 50675 156816, mkRat 50675 156816,
   mkRat 41075 156816, mkRat 84025 470448, mkRat 67825 470448, mkRat 67625 470448,
   mkRat 6625 104544, mkRat 19625 940896, mkRat 125 29403, mkRat 2825 3763584,
   mkRat 12125 15054336, mkRat 2125 2509056, mkRat 13975 15054336, mkRat 2875 1881792,
   mkRat 2125 1254528, mkRat 2125 1254528, mkRat 2125 1254528, mkRat 2125 1254528,
   mkRat 2125 1254528, mkRat 2125 1254528, mkRat 2125 1254528]

set_option maxRecDepth 40000 in
/-- C1 counterexample: from the reset detector state, `detectQRS` on `c1data`
returns the adjacent peaks 21 and 89, which are 68 < 72 samples apart — the
claimed 200 ms (72-sample) spacing of the returned peaks is violated. The
last two conjuncts certify that `c1sqrt` is the exact square root at the one
point where the run evaluates it. The proof evaluates the pipeline in stages
through the precomputed intermediate signals `c1norm`, `c1diff`, `c1sq`,
`c1integ`. -/
theorem C1_counterexample :
    (detectQRS c1sqrt 360 true ptInit c1data).1 = [21, 89] ∧
    ¬ ((21 : ℤ) + 72 ≤ 89) ∧
    qmul (c1sqrt (mkRat 4356 25)) (c1sqrt (mkRat 4356 25)) = mkRat 4356 25 ∧
    qle 0 (c1sqrt (mkRat 4356 25)) = true := by
  refine ⟨?_, by decide, by decide, by decide⟩
  unfold detectQRS
  dsimp only
  have hfil : (if true = true then c1data else bandpassFilter c1data) = c1data := rfl
  rw [hfil]
  have hmean : qdiv (c1data.foldl qadd 0) (qofNat c1data.length) = mkRat 47 20 := by decide
  rw [hmean]
  have hvar : qdiv
      (c1data.foldl (fun s v => qadd s (qmul (qsub v (mkRat 47 20)) (qsub v (mkRat 47 20)))) 0)
      (qofNat c1data.length) = mkRat 4356 25 := by decide
  rw [hvar]
  have hsqrt : c1sqrt (mkRat 4356 25) = mkRat 66 5 := by decide
  rw [hsqrt]
  have hstd : (if (mkRat 66 5 : ℚ) = 0 then (1 : ℚ) else mkRat 66 5) = mkRat 66 5 := by decide
  rw [hstd]
  have hnorm : c1data.map (fun v => qdiv (qsub v (mkRat 47 20)) (mkRat 66 5)) = c1norm := by
    decide
  rw [hnorm]
  have hdiff : differentiate 360 c1norm = c1diff := by decide
  rw [hdiff]
  have hsq : square c1diff = c1sq := by decide
  rw [hsq]
  have hws : qround (qmul (360 : ℚ) (mkRat 15 100)) = 54 := by decide
  rw [hws]
  have hint : movingWindowIntegrate c1sq 54 = c1integ := by decide
  rw [hint]
  decide

theorem C4_qtc_bazett_witness :
    (c4iv.qtc =
      if 0 < c4iv.qt ∧ 100 ≤ c4iv.rr then c4iv.qt / (fun q : ℚ => q) (c4iv.rr / 1000)
      else 0) ∧
    ((fun q : ℚ => q) 1 = 1 → c4iv.rr = 1000 → 0 ≤ c4iv.qt → c4iv.qtc = c4iv.qt) :=
  C4_qtc_bazett (fun q : ℚ => q) c4st c4pts c4iv (by decide) (by decide) (by decide)

end Rpeak
